import Mathlib

/-!
Verification of the Ultimate Kitchen Compendium backend against its
specification.  Each definition below is a shallow embedding of a function
of the backend source (paths given in the doc comments); machine decimals
(SQL `Numeric`) are modelled as `ℚ`, primary keys as `ℕ`, calendar dates
as `Int` day numbers, and nullable columns as `Option`.  Theorems at the
end of the file settle the specification claims against these embeddings.
-/

/-! ### Audit snapshot sanitization (`app/services/audit_service.py`) -/

/-- Structured JSON-like snapshot values accepted by the audit logger
(`old_values` / `new_values` in `AuditService.log_action`). -/
inductive JValue where
  | str (s : String)
  | num (n : Int)
  | bool (b : Bool)
  | null
  | arr (elems : List JValue)
  | obj (fields : List (String × JValue))
deriving Repr

/-- The `sensitive_fields` list of `AuditService._sanitize_data`. -/
def sensitive_fields : List String :=
  ["password", "password_hash", "token", "secret", "key",
   "auth_token", "refresh_token", "jwt", "credential"]

/-- Contiguous-substring test on character lists (Python `sub in s`). -/
def infixOfChars (pat : List Char) : List Char → Bool
  | [] => pat.isEmpty
  | c :: rest => pat.isPrefixOf (c :: rest) || infixOfChars pat rest

/-- Python `any(sensitive in key.lower() for sensitive in sensitive_fields)`:
substring containment of any sensitive field in the lowercased key
(character-wise lowering; the keys at issue are ASCII). -/
def isSensitiveKey (key : String) : Bool :=
  sensitive_fields.any (fun f => infixOfChars f.data (key.data.map Char.toLower))

/-- Python `value[:1000] + "...[TRUNCATED]"` (character-level slicing). -/
def truncateValue (s : String) : String :=
  String.mk (s.data.take 1000 ++ "...[TRUNCATED]".data)

/-- The exact loop body of `AuditService._sanitize_data`: sensitive keys are
redacted first; otherwise dictionary values recurse; otherwise string values
longer than 1000 characters are truncated; every other value (numbers,
booleans, null and in particular lists) is kept as is. -/
def sanitize_data : List (String × JValue) → List (String × JValue)
  | [] => []
  | (key, value) :: rest =>
    (key,
      if isSensitiveKey key then JValue.str "[REDACTED]"
      else
        match value with
        | JValue.obj fields => JValue.obj (sanitize_data fields)
        | JValue.str s =>
          if s.length > 1000 then JValue.str (truncateValue s)
          else JValue.str s
        | v => v) :: sanitize_data rest

/-- Redaction/truncation at every dictionary depth: each sensitive key maps to
the literal marker, each dictionary value satisfies the check recursively, and
each string value under a non-sensitive key is at most 1014 characters long
(original at most 1000, or 1000 plus the 14-character truncation marker).
Values inside arrays are not inspected, matching `_sanitize_data`, which only
recurses into `dict` values. -/
def objSanitized : List (String × JValue) → Bool
  | [] => true
  | (key, value) :: rest =>
    (if isSensitiveKey key then
       match value with
       | JValue.str s => s == "[REDACTED]"
       | _ => false
     else
       match value with
       | JValue.obj fields => objSanitized fields
       | JValue.str s => decide (s.length ≤ 1014)
       | _ => true) && objSanitized rest

/-- A persisted audit row (`app/models/audit.py`, fields used by
`log_action`). -/
structure AuditLog where
  user_id : Option Nat
  action : String
  resource_type : String
  resource_id : Option Nat
  old_values : Option (List (String × JValue))
  new_values : Option (List (String × JValue))

/-- Python truthiness guard in `log_action`: `if old_values: old_values =
self._sanitize_data(old_values)` — `None` and the empty dict pass through
unchanged (sanitizing the empty dict would be the identity anyway). -/
def sanitizeOptionalValues (v : Option (List (String × JValue))) :
    Option (List (String × JValue)) :=
  match v with
  | none => none
  | some d => if d.isEmpty then some d else some (sanitize_data d)

/-- The audit row built and persisted by `AuditService.log_action` (the
database session bookkeeping is omitted; the row content is what the claims
are about). -/
def log_action (user_id : Option Nat) (action : String) (resource_type : String)
    (resource_id : Option Nat) (old_values new_values : Option (List (String × JValue))) :
    AuditLog :=
  { user_id := user_id
    action := action
    resource_type := resource_type
    resource_id := resource_id
    old_values := sanitizeOptionalValues old_values
    new_values := sanitizeOptionalValues new_values }

/-! ### Cache service rate limiting (`app/services/cache_service.py`) -/

/-- Association-list lookup used to model Redis keys. -/
def assocFind (l : List (String × Int)) (k : String) : Option Int :=
  match l with
  | [] => none
  | (k', v) :: rest => if k' == k then some v else assocFind rest k

/-- Set a key to a value, overwriting an existing binding or appending a new
one. -/
def assocSet (l : List (String × Int)) (k : String) (v : Int) : List (String × Int) :=
  match l with
  | [] => [(k, v)]
  | (k', v') :: rest => if k' == k then (k, v) :: rest else (k', v') :: assocSet rest k v

/-- The slice of Redis state touched by `check_rate_limit`: integer counters
(`INCR`) and per-key expirations (`EXPIRE`, in seconds). -/
structure CacheStore where
  counters : List (String × Int)
  ttls : List (String × Int)

/-- The window key `f"rate_limit:{key}:{int(current_time // window_seconds)}"`
with the clock modelled as whole seconds. -/
def rateLimitWindowKey (key : String) (now window_seconds : Nat) : String :=
  String.append (String.append (String.append "rate_limit:" key) ":")
    (toString (now / window_seconds))

/-- `CacheService.check_rate_limit`.  `client = none` models
`self.redis_client` being absent, `fault = true` models any raised cache
error reaching the `except` handler; both return `(True, max_requests)` (fail
open).  `window_seconds = 0` would raise `ZeroDivisionError`, which the same
handler turns into fail-open.  Otherwise the window counter is incremented,
its expiry is set exactly when the post-increment count is 1, and the request
is allowed iff the count is at most `max_requests`. -/
def check_rate_limit (fault : Bool) (client : Option CacheStore) (now : Nat)
    (key : String) (max_requests : Int) (window_seconds : Nat) :
    (Bool × Int) × Option CacheStore :=
  if fault then ((true, max_requests), client)
  else
    match client with
    | none => ((true, max_requests), none)
    | some st =>
      if window_seconds == 0 then ((true, max_requests), some st)
      else
        let window_key := rateLimitWindowKey key now window_seconds
        let count := (assocFind st.counters window_key).getD 0 + 1
        let st' : CacheStore := { st with counters := assocSet st.counters window_key count }
        let st'' : CacheStore :=
          if count == 1 then { st' with ttls := assocSet st'.ttls window_key (Int.ofNat window_seconds) }
          else st'
        ((count ≤ max_requests, max 0 (max_requests - count)), some st'')

/-! ### Users and households (`app/api/v1/users.py`, `app/models/user.py`) -/

/-- A user row (the fields used by the claims; `household_id` is nullable). -/
structure User where
  id : Nat
  username : String
  email : String
  household_id : Option Nat
deriving DecidableEq, Repr

/-- A household row (`owner_id` is the owning user). -/
structure Household where
  id : Nat
  owner_id : Nat
  name : String
deriving DecidableEq, Repr

/-- The user/household tables touched by the invite/join endpoints. -/
structure UserDB where
  users : List User
  households : List Household
deriving Repr

/-- The `invite_to_household` endpoint: 404 when the caller has no household,
403 when the caller owns no household (`current_user.owned_household`), 404
when no user has the given email, 400 when the invited user already belongs
to a household; otherwise the composed self-describing token
`invite_` followed by the caller's household id, `_`, and the invited user's
id. -/
def invite_to_household (db : UserDB) (current_user : User) (email : String) :
    Except Nat String :=
  match current_user.household_id with
  | none => Except.error 404
  | some hid =>
    match db.households.find? (fun h => h.owner_id == current_user.id) with
    | none => Except.error 403
    | some _ =>
      match db.users.find? (fun u => u.email == email) with
      | none => Except.error 404
      | some invited_user =>
        if invited_user.household_id.isSome then Except.error 400
        else
          Except.ok (String.append (String.append (String.append "invite_" (toString hid)) "_")
            (toString invited_user.id))

/-- The `UUID(...)` constructor applied to the household part of the token:
ids are rendered into tokens with `toString`, and the constructor accepts
exactly well-formed renderings, raising `ValueError` on anything else —
modelled as a decimal parse over the rendered id namespace. -/
def parse_uuid? (s : String) : Option Nat :=
  if !s.data.isEmpty && s.data.all Char.isDigit then
    some (s.data.foldl (fun n c => n * 10 + (c.toNat - '0'.toNat)) 0)
  else none

/-- Python `str.split("_")` (single-character separator) on character lists. -/
def splitChar (c : Char) : List Char → List (List Char)
  | [] => [[]]
  | x :: xs =>
    if x = c then [] :: splitChar c xs
    else
      match splitChar c xs with
      | [] => [[x]]
      | y :: ys => (x :: y) :: ys

/-- `invitation_token.split("_")`. -/
def splitOnUnderscore (s : String) : List String :=
  (splitChar '_' s.data).map String.mk

/-- The `join_household` endpoint.  The token is split on underscores and must
have exactly three parts starting with `invite` (else 400, via the caught
`ValueError`); a token embedding a different user id yields 403; a caller
already in a household yields 400; then the household part is fed to the
`UUID` constructor *outside* the `try` block — modelled here by a decimal
parse, whose failure escapes the handler as an unhandled error (500); an
unknown household yields 404; otherwise the caller is attached to the
household. -/
def join_household (db : UserDB) (current_user : User) (invitation_token : String) :
    Except Nat Household × UserDB :=
  let parts := splitOnUnderscore invitation_token
  if parts.length != 3 || parts.getD 0 "" != "invite" then (Except.error 400, db)
  else
    let household_id := parts.getD 1 ""
    let invited_user_id := parts.getD 2 ""
    if toString current_user.id != invited_user_id then (Except.error 403, db)
    else if current_user.household_id.isSome then (Except.error 400, db)
    else
      match parse_uuid? household_id with
      | none => (Except.error 500, db)
      | some hid =>
        match db.households.find? (fun h => h.id == hid) with
        | none => (Except.error 404, db)
        | some household =>
          (Except.ok household,
           { db with
             users := db.users.map (fun u =>
               if u.id == current_user.id then { u with household_id := some household.id }
               else u) })

/-! ### Inventory (`app/api/v1/inventory.py`, `app/models/inventory.py`) -/

/-- An inventory item row; `expiration_date` is a nullable day number and
`purchase_price` a nullable decimal.  The `created_at` ordering tiebreaker of
the list query is not modelled (it never affects which rows are returned). -/
structure InventoryItem where
  id : Nat
  household_id : Nat
  added_by : Nat
  name : String
  category : String
  quantity : ℚ
  unit : String
  expiration_date : Option Int
  purchase_price : Option ℚ
  location : String
deriving DecidableEq, Repr

/-- A consumption log row (`ConsumptionLog`); immutable once created. -/
structure ConsumptionLog where
  item_id : Nat
  user_id : Nat
  quantity_used : ℚ
  waste_reason : Option String
deriving DecidableEq, Repr

/-- The inventory tables. -/
structure InventoryDB where
  items : List InventoryItem
  logs : List ConsumptionLog
deriving Repr

/-- Request body of the consume endpoint (`ConsumptionLogCreate`; its
`item_id` field is ignored by the handler, which uses the path parameter). -/
structure ConsumptionLogCreate where
  quantity_used : ℚ
  waste_reason : Option String
deriving DecidableEq, Repr

/-- SQL comparison `expiration_date <= d`: `NULL` compares as unknown, so rows
without an expiration date never match. -/
def dateLe (e : Option Int) (d : Int) : Bool :=
  match e with
  | some x => decide (x ≤ d)
  | none => false

/-- SQL comparison `expiration_date >= d` (again `NULL`-excluding). -/
def dateGe (e : Option Int) (d : Int) : Bool :=
  match e with
  | some x => decide (d ≤ x)
  | none => false

/-- Optional query filters: `if value: query = query.where(...)`. -/
def maybeFilter {α β : Type} (q : List α) (o : Option β) (p : β → α → Bool) : List α :=
  match o with
  | some b => q.filter (p b)
  | none => q

/-- Stable insertion of an element into a sorted list. -/
def orderedInsert {α : Type} (le : α → α → Bool) (a : α) : List α → List α
  | [] => [a]
  | b :: l => if le a b then a :: b :: l else b :: orderedInsert le a l

/-- Stable sort used to model SQL `ORDER BY` (which only permutes the
result set). -/
def insertionSortBy {α : Type} (le : α → α → Bool) : List α → List α
  | [] => []
  | a :: l => orderedInsert le a (insertionSortBy le l)

/-- Case-insensitive substring search, modelling `ilike(f"%{s}%")`. -/
def nameMatches (search : String) (name : String) : Bool :=
  infixOfChars search.toLower.data name.toLower.data

/-- Sort key for `expiration_date.asc().nullslast()`. -/
def expNullsLastLe (a b : InventoryItem) : Bool :=
  match a.expiration_date, b.expiration_date with
  | some x, some y => decide (x ≤ y)
  | some _, none => true
  | none, some _ => false
  | none, none => true

/-- The `GET /inventory/` list query: household-scoped base query, optional
location/category/expiration/search filters, expiration-ascending-nulls-last
ordering, then offset/limit pagination. -/
def get_inventory_items (db : InventoryDB) (current_user : User)
    (location category search : Option String)
    (expires_before expires_after : Option Int) (skip limit : Nat) :
    List InventoryItem :=
  let query := db.items.filter (fun i => some i.household_id == current_user.household_id)
  let query := maybeFilter query location (fun loc i => i.location == loc)
  let query := maybeFilter query category (fun c i => i.category == c)
  let query := maybeFilter query expires_before (fun d i => dateLe i.expiration_date d)
  let query := maybeFilter query expires_after (fun d i => dateGe i.expiration_date d)
  let query := maybeFilter query search (fun s i => nameMatches s i.name)
  let query := insertionSortBy expNullsLastLe query
  (query.drop skip).take limit

/-- The `GET /inventory/{item_id}` lookup: the row must match both the id and
the caller's household, else the endpoint raises 404. -/
def get_inventory_item (db : InventoryDB) (current_user : User) (item_id : Nat) :
    Option InventoryItem :=
  db.items.find? (fun i => i.id == item_id && some i.household_id == current_user.household_id)

/-- The `POST /inventory/{item_id}/consume` handler: household-scoped lookup
(404 when absent), a new consumption log row, quantity decrement, and deletion
of the item when the decremented quantity is ≤ 0. -/
def log_consumption (db : InventoryDB) (current_user : User) (item_id : Nat)
    (consumption_data : ConsumptionLogCreate) :
    Except Nat ConsumptionLog × InventoryDB :=
  match db.items.find? (fun i => i.id == item_id && some i.household_id == current_user.household_id) with
  | none => (Except.error 404, db)
  | some item =>
    let log : ConsumptionLog :=
      { item_id := item_id
        user_id := current_user.id
        quantity_used := consumption_data.quantity_used
        waste_reason := consumption_data.waste_reason }
    let newQuantity := item.quantity - consumption_data.quantity_used
    let items' :=
      if newQuantity ≤ 0 then db.items.filter (fun i => !(i.id == item_id))
      else db.items.map (fun i => if i.id == item_id then { i with quantity := newQuantity } else i)
    (Except.ok log, { items := items', logs := db.logs ++ [log] })

/-! ### Meal plans (`app/api/v1/meal_plans.py`, `app/models/meal_plan.py`) -/

/-- A meal plan header row. -/
structure MealPlan where
  id : Nat
  household_id : Nat
  created_by : Nat
  name : String
  start_date : Int
  end_date : Int
deriving DecidableEq, Repr

/-- A meal plan entry row. -/
structure MealPlanEntry where
  id : Nat
  meal_plan_id : Nat
  date : Int
  meal_type : String
deriving DecidableEq, Repr

/-- The meal-planning tables. -/
structure MealPlanDB where
  plans : List MealPlan
  entries : List MealPlanEntry
deriving Repr

/-- The `GET /meal-plans/{meal_plan_id}` lookup: visible to the creator or to
any member of the plan's household, 404 otherwise. -/
def get_meal_plan (db : MealPlanDB) (current_user : User) (meal_plan_id : Nat) :
    Option MealPlan :=
  db.plans.find? (fun p =>
    p.id == meal_plan_id &&
      (p.created_by == current_user.id || some p.household_id == current_user.household_id))

/-- Sort key for `order_by(MealPlanEntry.date, MealPlanEntry.meal_type)`. -/
def entryOrderLe (a b : MealPlanEntry) : Bool :=
  decide (a.date < b.date) || (a.date == b.date && decide (a.meal_type ≤ b.meal_type))

/-- The `GET /meal-plans/{meal_plan_id}/entries` query.  It filters only by
`meal_plan_id` (plus the optional date/meal-type filters): the
`current_user` dependency is resolved but never used in the query, so no
household or creator restriction is applied. -/
def get_meal_plan_entries (db : MealPlanDB) (current_user : User) (meal_plan_id : Nat)
    (date : Option Int) (meal_type : Option String) : List MealPlanEntry :=
  let query := db.entries.filter (fun e => e.meal_plan_id == meal_plan_id)
  let query := maybeFilter query date (fun d e => e.date == d)
  let query := maybeFilter query meal_type (fun mt e => e.meal_type == mt)
  insertionSortBy entryOrderLe query

/-! ### Recipes (`app/api/v1/recipes.py`) -/

/-- A recipe header row with the fields the review/update handlers read and
write (`avg_rating` nullable until the first review, `review_count`
defaulting to 0). -/
structure Recipe where
  id : Nat
  created_by : Nat
  household_id : Nat
  is_public : Bool
  title : String
  avg_rating : Option ℚ
  review_count : Nat
deriving DecidableEq, Repr

/-- A recipe ingredient child row. -/
structure RecipeIngredient where
  recipe_id : Nat
  name : String
deriving DecidableEq, Repr

/-- A recipe step child row. -/
structure RecipeStep where
  recipe_id : Nat
  step_number : Nat
  instruction : String
deriving DecidableEq, Repr

/-- A recipe review row. -/
structure RecipeReview where
  recipe_id : Nat
  user_id : Nat
  rating : ℚ
deriving DecidableEq, Repr

/-- The recipe tables. -/
structure RecipeDB where
  recipes : List Recipe
  ingredients : List RecipeIngredient
  steps : List RecipeStep
  reviews : List RecipeReview
deriving Repr

/-- Ingredient payload of create/update requests. -/
structure RecipeIngredientCreate where
  name : String
deriving DecidableEq, Repr

/-- Step payload of create/update requests. -/
structure RecipeStepCreate where
  step_number : Nat
  instruction : String
deriving DecidableEq, Repr

/-- Create payload (header fields beyond the title are irrelevant to the
claims). -/
structure RecipeCreate where
  title : String
  is_public : Bool
  ingredients : List RecipeIngredientCreate
  steps : List RecipeStepCreate
deriving DecidableEq, Repr

/-- Update payload: optional header fields plus optional wholesale
ingredient/step lists. -/
structure RecipeUpdate where
  title : Option String
  ingredients : Option (List RecipeIngredientCreate)
  steps : Option (List RecipeStepCreate)
deriving DecidableEq, Repr

/-- The `POST /recipes/` handler: inserts the header (fresh id, caller as
creator, caller's household, `avg_rating` NULL and `review_count` 0 by column
default) plus its ingredient and step children. -/
def create_recipe (db : RecipeDB) (current_user : User) (household_id : Nat)
    (fresh_id : Nat) (recipe_data : RecipeCreate) : Recipe × RecipeDB :=
  let recipe : Recipe :=
    { id := fresh_id
      created_by := current_user.id
      household_id := household_id
      is_public := recipe_data.is_public
      title := recipe_data.title
      avg_rating := none
      review_count := 0 }
  (recipe,
   { db with
     recipes := db.recipes ++ [recipe]
     ingredients := db.ingredients ++ recipe_data.ingredients.map (fun i =>
       { recipe_id := fresh_id, name := i.name })
     steps := db.steps ++ recipe_data.steps.map (fun s =>
       { recipe_id := fresh_id, step_number := s.step_number, instruction := s.instruction }) })

/-- Ratings of all stored reviews of one recipe, in storage order. -/
def ratingsFor (reviews : List RecipeReview) (recipe_id : Nat) : List ℚ :=
  (reviews.filter (fun v => v.recipe_id == recipe_id)).map (fun v => v.rating)

/-- The `POST /recipes/{recipe_id}/reviews` handler: the recipe must be
public or in the caller's household (404 otherwise); the review row is
inserted and flushed, `avg_rating` is recomputed as the SQL `AVG` over all
review ratings of the recipe (the new one included), and `review_count` is
incremented by one. -/
def add_recipe_review (db : RecipeDB) (current_user : User) (recipe_id : Nat)
    (rating : ℚ) : Except Nat RecipeReview × RecipeDB :=
  match db.recipes.find? (fun r =>
      r.id == recipe_id && (r.is_public || some r.household_id == current_user.household_id)) with
  | none => (Except.error 404, db)
  | some _ =>
    let review : RecipeReview := { recipe_id := recipe_id, user_id := current_user.id, rating := rating }
    let reviews' := db.reviews ++ [review]
    let ratings := ratingsFor reviews' recipe_id
    let avg_rating : ℚ := ratings.sum / (ratings.length : ℚ)
    (Except.ok review,
     { db with
       reviews := reviews'
       recipes := db.recipes.map (fun r =>
         if r.id == recipe_id then
           { r with avg_rating := some avg_rating, review_count := r.review_count + 1 }
         else r) })

/-- The `PUT /recipes/{recipe_id}` handler: creator-only lookup (404
otherwise, deliberately conflated with not-found).  When an ingredient
(respectively step) list is supplied, the source's "Delete existing
ingredients" block executes `db.execute(select(...))` — a read, not a
delete — so the old child rows survive and the new ones are appended. -/
def update_recipe (db : RecipeDB) (current_user : User) (recipe_id : Nat)
    (recipe_update : RecipeUpdate) : Except Nat Recipe × RecipeDB :=
  match db.recipes.find? (fun r => r.id == recipe_id && r.created_by == current_user.id) with
  | none => (Except.error 404, db)
  | some recipe =>
    let recipe' := { recipe with title := recipe_update.title.getD recipe.title }
    let ingredients' :=
      match recipe_update.ingredients with
      | some newIngredients =>
        db.ingredients ++ newIngredients.map (fun i => { recipe_id := recipe_id, name := i.name })
      | none => db.ingredients
    let steps' :=
      match recipe_update.steps with
      | some newSteps =>
        db.steps ++ newSteps.map (fun s =>
          { recipe_id := recipe_id, step_number := s.step_number, instruction := s.instruction })
      | none => db.steps
    (Except.ok recipe',
     { db with
       recipes := db.recipes.map (fun r => if r.id == recipe_id then recipe' else r)
       ingredients := ingredients'
       steps := steps' })

/-! ### Inventory service (`app/services/inventory_service.py`) -/

/-- Sort key for `order_by(InventoryItem.expiration_date.asc())`; every row
reaching this sort has a non-null expiration date. -/
def expAscLe (a b : InventoryItem) : Bool :=
  decide (a.expiration_date.getD 0 ≤ b.expiration_date.getD 0)

/-- `InventoryService.get_expiring_items`: household items with a non-null
expiration date at most `today + days_ahead` and positive quantity, ordered
by soonest expiration. -/
def get_expiring_items (db : InventoryDB) (household_id : Nat) (today days_ahead : Int) :
    List InventoryItem :=
  let cutoff_date := today + days_ahead
  insertionSortBy expAscLe
    (db.items.filter (fun i =>
      i.household_id == household_id && dateLe i.expiration_date cutoff_date &&
        decide (0 < i.quantity)))

/-- The heuristic forecast result (`_simple_waste_forecast`'s returned dict;
`items_at_risk` keeps the included item together with its estimated value). -/
structure WasteForecast where
  household_id : Nat
  forecast_period_days : Int
  total_items_at_risk : Nat
  estimated_waste_value : ℚ
  items_at_risk : List (InventoryItem × ℚ)
  recommendations : List String
  confidence_score : ℚ
deriving DecidableEq, Repr

/-- Loop body of `_simple_waste_forecast`: Python `if item.purchase_price:`
is truthiness, skipping both a missing and a zero price; an included item
contributes `purchase_price * (quantity / max(quantity, 1))`. -/
def wasteRiskEntries (expiring_items : List InventoryItem) : List (InventoryItem × ℚ) :=
  expiring_items.filterMap (fun item =>
    match item.purchase_price with
    | some price =>
      if price == 0 then none
      else some (item, price * (item.quantity / max item.quantity 1))
    | none => none)

/-- `InventoryService._simple_waste_forecast`: only items with a truthy
purchase price enter `items_at_risk` (and hence the count and the value sum);
three canned recommendations are attached when that list is non-empty; the
confidence score is the fixed 0.7. -/
def simple_waste_forecast (db : InventoryDB) (household_id : Nat) (today days_ahead : Int) :
    WasteForecast :=
  let expiring_items := get_expiring_items db household_id today days_ahead
  let items_at_risk := wasteRiskEntries expiring_items
  let total_value := (items_at_risk.map (fun e => e.2)).sum
  let recommendations :=
    if items_at_risk.isEmpty then []
    else
      ["Use items expiring within 3 days",
       "Plan meals around expiring ingredients",
       "Consider freezing items if not used soon"]
  { household_id := household_id
    forecast_period_days := days_ahead
    total_items_at_risk := items_at_risk.length
    estimated_waste_value := total_value
    items_at_risk := items_at_risk
    recommendations := recommendations
    confidence_score := (7 : ℚ) / 10 }

/-- `InventoryService.forecast_waste`: with no AI service attached the
heuristic forecast runs; otherwise the call is delegated to the AI service
(which additionally receives the 30-day consumption history, irrelevant
here and elided from the delegate's signature). -/
def forecast_waste (ai_service : Option (List InventoryItem → Int → WasteForecast))
    (db : InventoryDB) (household_id : Nat) (today days_ahead : Int) : WasteForecast :=
  match ai_service with
  | none => simple_waste_forecast db household_id today days_ahead
  | some delegate => delegate (get_expiring_items db household_id today days_ahead) days_ahead

/-! ### Notification service (`app/services/notification_service.py`) -/

/-- A live WebSocket connection.  `cid` is the socket's object identity;
`user_id` mirrors the `user_id` attribute stored on the socket by the
gateway (`hasattr` guarded, hence optional). -/
structure Conn where
  cid : Nat
  user_id : Option Nat
deriving DecidableEq, Repr

/-- The household-to-connections registry (`active_connections`), an
insertion-ordered map modelled as an association list. -/
abbrev Registry := List (Nat × List Conn)

/-- In-memory state of the notification service. -/
structure NotificationService where
  active_connections : Registry
  push_tokens : List (Nat × List String)
deriving Repr

/-- Dictionary lookup `active_connections[household_id]`. -/
def lookupH (reg : Registry) (household_id : Nat) : Option (List Conn) :=
  match reg with
  | [] => none
  | (k, l) :: rest => if k == household_id then some l else lookupH rest household_id

/-- Overwrite the value stored under an existing key. -/
def setH : Registry → Nat → List Conn → Registry
  | [], _, _ => []
  | (k, v) :: rest, household_id, l =>
    if k == household_id then (k, l) :: setH rest household_id l
    else (k, v) :: setH rest household_id l

/-- Delete a key (`del active_connections[household_id]`). -/
def delH : Registry → Nat → Registry
  | [], _ => []
  | (k, v) :: rest, household_id =>
    if k == household_id then delH rest household_id
    else (k, v) :: delH rest household_id

/-- Connections currently registered for a household (empty when the key is
absent). -/
def connsOf (ns : NotificationService) (household_id : Nat) : List Conn :=
  (lookupH ns.active_connections household_id).getD []

/-- `NotificationService.connect_websocket`: create the household's list when
missing, then append the accepted socket. -/
def connect_websocket (ns : NotificationService) (household_id : Nat) (websocket : Conn) :
    NotificationService :=
  match lookupH ns.active_connections household_id with
  | none => { ns with active_connections := ns.active_connections ++ [(household_id, [websocket])] }
  | some l => { ns with active_connections := setH ns.active_connections household_id (l ++ [websocket]) }

/-- `NotificationService.disconnect_websocket`: `list.remove` drops the first
occurrence and its `ValueError` (socket absent) is swallowed; the household's
entry is deleted entirely once its list is empty. -/
def disconnect_websocket (ns : NotificationService) (household_id : Nat) (websocket : Conn) :
    NotificationService :=
  match lookupH ns.active_connections household_id with
  | none => ns
  | some l =>
    let l' := l.erase websocket
    if l'.isEmpty then { ns with active_connections := delH ns.active_connections household_id }
    else { ns with active_connections := setH ns.active_connections household_id l' }

/-- The broadcast envelope `{type, timestamp, data}`. -/
structure Envelope where
  type : String
  timestamp : Int
  data : String
deriving DecidableEq, Repr

/-- The exclusion guard of the send loop: `exclude_user_id and
hasattr(websocket, "user_id") and websocket.user_id == exclude_user_id`. -/
def isExcluded (exclude_user_id : Option Nat) (websocket : Conn) : Bool :=
  match exclude_user_id, websocket.user_id with
  | some u, some v => v == u
  | _, _ => false

/-- The per-connection loop of `send_household_update`: excluded connections
are skipped, a connection whose send faults (`fails`) is collected as
disconnected, every other connection receives the message.  Returns
(delivered connections, disconnected connections), each in registry order. -/
def sendLoop (exclude_user_id : Option Nat) (fails : Conn → Bool) :
    List Conn → List Conn × List Conn
  | [] => ([], [])
  | websocket :: rest =>
    if isExcluded exclude_user_id websocket then sendLoop exclude_user_id fails rest
    else if fails websocket then
      let (d, x) := sendLoop exclude_user_id fails rest
      (d, websocket :: x)
    else
      let (d, x) := sendLoop exclude_user_id fails rest
      (websocket :: d, x)

/-- `NotificationService.send_household_update`: no-op when the household has
no registered connections; otherwise the envelope is sent to every
non-excluded connection of that household (faulting sends are collected),
and every collected connection is disconnected afterwards.  `fails` models
which sends raise (`WebSocketDisconnect` or any other exception).  Returns
the (connection, envelope) deliveries and the updated registry. -/
def send_household_update (ns : NotificationService) (household_id : Nat)
    (event_type : String) (timestamp : Int) (data : String)
    (fails : Conn → Bool) (exclude_user_id : Option Nat) :
    List (Conn × Envelope) × NotificationService :=
  match lookupH ns.active_connections household_id with
  | none => ([], ns)
  | some conns =>
    let message : Envelope := { type := event_type, timestamp := timestamp, data := data }
    let (delivered, disconnected) := sendLoop exclude_user_id fails conns
    (delivered.map (fun websocket => (websocket, message)),
     disconnected.foldl (fun acc websocket => disconnect_websocket acc household_id websocket) ns)

/-- `NotificationService.cleanup`: force-close every socket and clear the
WebSocket registry (the push-token registry is untouched by the source). -/
def cleanup (ns : NotificationService) : NotificationService :=
  { ns with active_connections := [] }

/-- One operation against the notification service registry. -/
inductive NotifOp where
  | connect (household_id : Nat) (websocket : Conn)
  | disconnect (household_id : Nat) (websocket : Conn)
  | send (household_id : Nat) (event_type : String) (timestamp : Int) (data : String)
      (fails : Conn → Bool) (exclude_user_id : Option Nat)
  | cleanup

/-- Apply one operation. -/
def applyOp (ns : NotificationService) : NotifOp → NotificationService
  | NotifOp.connect hid ws => connect_websocket ns hid ws
  | NotifOp.disconnect hid ws => disconnect_websocket ns hid ws
  | NotifOp.send hid ev ts d fails excl => (send_household_update ns hid ev ts d fails excl).2
  | NotifOp.cleanup => cleanup ns

/-- The service state at process start: both registries empty. -/
def initNotificationService : NotificationService :=
  { active_connections := [], push_tokens := [] }

/-- Apply a sequence of operations from the initial state. -/
def applyOps (ops : List NotifOp) : NotificationService :=
  ops.foldl applyOp initNotificationService

/-- A registry state reachable by some operation sequence. -/
def Reachable (ns : NotificationService) : Prop :=
  ∃ ops : List NotifOp, applyOps ops = ns

/-- Structural well-formedness of the registry: household keys are unique
(it models a dict) and no household maps to an empty list. -/
def RegistryWf (reg : Registry) : Prop :=
  (reg.map Prod.fst).Nodup ∧ ∀ p ∈ reg, p.2 ≠ []

/-! ## Theorems

The remainder of the file settles the specification claims against the
embeddings above. -/

/-! #### Audit sanitization (claim C5) -/

/-- Truncated strings are at most 1000 characters plus the 14-character
marker. -/
theorem length_truncateValue (s : String) : (truncateValue s).length ≤ 1014 := by
  show (s.data.take 1000 ++ "...[TRUNCATED]".data).length ≤ 1014
  rw [List.length_append, List.length_take]
  have h : min 1000 s.data.length ≤ 1000 := Nat.min_le_left _ _
  have h14 : ("...[TRUNCATED]".data).length = 14 := rfl
  omega

/-- Every output of the sanitizer passes the recursive dictionary check. -/
theorem objSanitized_sanitize_data (data : List (String × JValue)) :
    objSanitized (sanitize_data data) = true := by
  induction data using sanitize_data.induct with
  | case1 => simp [sanitize_data, objSanitized]
  | case2 key value rest ih1 ih2 =>
    by_cases hsens : isSensitiveKey key
    · cases value <;> simp [sanitize_data, objSanitized, hsens, ih2]
    · cases value with
      | str s =>
        by_cases hlen : s.length > 1000
        · have ht := length_truncateValue s
          simp [sanitize_data, objSanitized, hsens, hlen, ih2, ht]
        · have hle : s.length ≤ 1014 := by omega
          simp [sanitize_data, objSanitized, hsens, hlen, ih2, hle]
      | obj fields =>
        have hf : objSanitized (sanitize_data fields) = true := ih1
        simp [sanitize_data, objSanitized, hsens, ih2, hf]
      | num n => simp [sanitize_data, objSanitized, hsens, ih2]
      | bool b => simp [sanitize_data, objSanitized, hsens, ih2]
      | null => simp [sanitize_data, objSanitized, hsens, ih2]
      | arr elems => simp [sanitize_data, objSanitized, hsens, ih2]

/-- The sanitizer rewrites a dictionary entrywise: the head entry keeps its
key and the tail is sanitized recursively. -/
theorem sanitize_data_cons (k : String) (v : JValue) (rest : List (String × JValue)) :
    ∃ w : JValue, sanitize_data ((k, v) :: rest) = (k, w) :: sanitize_data rest := by
  cases v <;> (simp only [sanitize_data]; exact ⟨_, rfl⟩)

/-- Top-level sensitive keys are redacted. -/
theorem mem_sanitize_redacted (data : List (String × JValue)) (k : String) (v : JValue)
    (hmem : (k, v) ∈ data) (hsens : isSensitiveKey k = true) :
    (k, JValue.str "[REDACTED]") ∈ sanitize_data data := by
  induction data with
  | nil => cases hmem
  | cons hd tl ih =>
    obtain ⟨k', v'⟩ := hd
    rcases List.mem_cons.mp hmem with heq | hmem'
    · obtain ⟨hk, hv⟩ := Prod.mk.injEq .. ▸ heq
      subst hk hv
      cases v <;> simp [sanitize_data, hsens, List.mem_cons]
    · obtain ⟨w, hw⟩ := sanitize_data_cons k' v' tl
      rw [hw]
      exact List.mem_cons_of_mem _ (ih hmem')

/-- Top-level overlong strings under non-sensitive keys are truncated. -/
theorem mem_sanitize_truncated (data : List (String × JValue)) (k s : String)
    (hmem : (k, JValue.str s) ∈ data) (hsens : isSensitiveKey k = false)
    (hlen : 1000 < s.length) :
    (k, JValue.str (truncateValue s)) ∈ sanitize_data data := by
  induction data with
  | nil => cases hmem
  | cons hd tl ih =>
    obtain ⟨k', v'⟩ := hd
    rcases List.mem_cons.mp hmem with heq | hmem'
    · obtain ⟨hk, hv⟩ := Prod.mk.injEq .. ▸ heq
      subst hk hv
      simp [sanitize_data, hsens, hlen, List.mem_cons]
    · obtain ⟨w, hw⟩ := sanitize_data_cons k' v' tl
      rw [hw]
      exact List.mem_cons_of_mem _ (ih hmem')

/-- Array values under non-sensitive keys pass through unmodified (their
contents are never inspected). -/
theorem mem_sanitize_arr (data : List (String × JValue)) (k : String) (elems : List JValue)
    (hmem : (k, JValue.arr elems) ∈ data) (hsens : isSensitiveKey k = false) :
    (k, JValue.arr elems) ∈ sanitize_data data := by
  induction data with
  | nil => cases hmem
  | cons hd tl ih =>
    obtain ⟨k', v'⟩ := hd
    rcases List.mem_cons.mp hmem with heq | hmem'
    · obtain ⟨hk, hv⟩ := Prod.mk.injEq .. ▸ heq
      subst hk hv
      simp [sanitize_data, hsens, List.mem_cons]
    · obtain ⟨w, hw⟩ := sanitize_data_cons k' v' tl
      rw [hw]
      exact List.mem_cons_of_mem _ (ih hmem')

/-- C5 (amended).  Before persistence, the audit snapshot sanitizer replaces
the value of every key whose lowercase form contains a sensitive field with
the literal `[REDACTED]` and truncates every overlong string value — at the
top level and recursively through nested *dictionary* values (the recursive
check `objSanitized`).  Nested structures other than dictionaries are not
walked: an array value passes through unchanged, so a sensitive value inside
a list element survives in the persisted record (see the counterexample).
The last conjunct ties the sanitizer to the persisted row built by
`log_action`. -/
theorem C5_sanitize_amended :
    (∀ data : List (String × JValue), objSanitized (sanitize_data data) = true) ∧
    (∀ (data : List (String × JValue)) (k : String) (v : JValue),
        (k, v) ∈ data → isSensitiveKey k = true →
        (k, JValue.str "[REDACTED]") ∈ sanitize_data data) ∧
    (∀ (data : List (String × JValue)) (k s : String),
        (k, JValue.str s) ∈ data → isSensitiveKey k = false → 1000 < s.length →
        (k, JValue.str (truncateValue s)) ∈ sanitize_data data) ∧
    (∀ (data : List (String × JValue)) (k : String) (elems : List JValue),
        (k, JValue.arr elems) ∈ data → isSensitiveKey k = false →
        (k, JValue.arr elems) ∈ sanitize_data data) ∧
    (∀ (u : Option Nat) (a rt : String) (rid : Option Nat)
        (old : Option (List (String × JValue))) (data : List (String × JValue)),
        data ≠ [] →
        (log_action u a rt rid old (some data)).new_values = some (sanitize_data data)) := by
  refine ⟨objSanitized_sanitize_data, mem_sanitize_redacted, mem_sanitize_truncated,
    mem_sanitize_arr, ?_⟩
  intro u a rt rid old data hne
  simp [log_action, sanitizeOptionalValues, List.isEmpty_iff, hne]

/-- C5 counterexample.  A dictionary nested inside a *list* is not walked by
`_sanitize_data`: the snapshot
`{"items": [{"password": "hunter2"}]}` is persisted verbatim — the
`password` key three levels down keeps the value `hunter2` instead of the
`[REDACTED]` marker required by the claim for every nesting depth. -/
theorem C5_sanitize_list_leak :
    sanitize_data [("items", JValue.arr [JValue.obj [("password", JValue.str "hunter2")]])] =
      [("items", JValue.arr [JValue.obj [("password", JValue.str "hunter2")]])] := by
  have h : isSensitiveKey "items" = false := by decide
  simp [sanitize_data, h]

/-- Witness for C5: the amended theorem applied to the one-entry snapshot
`{"password": "hunter2"}` shows the persisted value is the redaction
marker. -/
theorem C5_sanitize_amended_witness :
    (("password", JValue.str "hunter2") ∈
        ([("password", JValue.str "hunter2")] : List (String × JValue))) ∧
    isSensitiveKey "password" = true ∧
    ("password", JValue.str "[REDACTED]") ∈
      sanitize_data [("password", JValue.str "hunter2")] := by
  refine ⟨List.mem_cons_self _ _, by decide, ?_⟩
  exact C5_sanitize_amended.2.1 _ "password" (JValue.str "hunter2")
    (List.mem_cons_self _ _) (by decide)

/-! #### Rate limiting (claim C6) -/

/-- Reading back a key just written to the association list. -/
theorem assocFind_assocSet (l : List (String × Int)) (k : String) (v : Int) :
    assocFind (assocSet l k v) k = some v := by
  induction l with
  | nil => simp [assocSet, assocFind]
  | cons hd tl ih =>
    obtain ⟨k', v'⟩ := hd
    by_cases h : k' = k
    · simp [assocSet, assocFind, h]
    · simp [assocSet, assocFind, h, ih]

/-- C6 (confirmed).  The rate-limit check fails open — `(allowed, remaining) =
(true, max_requests)` — whenever a cache fault occurs or no cache client is
attached; otherwise it increments the fixed-window counter keyed
`rate_limit:{key}:{window_index}`, sets that key's expiry to `window_seconds`
exactly when the post-increment count is 1, allows the request iff the count
is at most `max_requests`, and reports `remaining = max 0 (max_requests −
count)`.  The last conjunct exhibits the incremented counter in the
resulting store. -/
theorem C6_check_rate_limit :
    (∀ (client : Option CacheStore) (now : Nat) (key : String) (maxr : Int) (w : Nat),
        check_rate_limit true client now key maxr w = ((true, maxr), client)) ∧
    (∀ (now : Nat) (key : String) (maxr : Int) (w : Nat),
        check_rate_limit false none now key maxr w = ((true, maxr), none)) ∧
    (∀ (st : CacheStore) (now : Nat) (key : String) (maxr : Int) (w : Nat), 0 < w →
        check_rate_limit false (some st) now key maxr w =
          ((decide ((assocFind st.counters (rateLimitWindowKey key now w)).getD 0 + 1 ≤ maxr),
            max 0 (maxr - ((assocFind st.counters (rateLimitWindowKey key now w)).getD 0 + 1))),
           some
             { counters :=
                 assocSet st.counters (rateLimitWindowKey key now w)
                   ((assocFind st.counters (rateLimitWindowKey key now w)).getD 0 + 1)
               ttls :=
                 if ((assocFind st.counters (rateLimitWindowKey key now w)).getD 0 + 1) == 1 then
                   assocSet st.ttls (rateLimitWindowKey key now w) (Int.ofNat w)
                 else st.ttls })) ∧
    (∀ (st : CacheStore) (now : Nat) (key : String) (maxr : Int) (w : Nat), 0 < w →
        assocFind
            (assocSet st.counters (rateLimitWindowKey key now w)
              ((assocFind st.counters (rateLimitWindowKey key now w)).getD 0 + 1))
            (rateLimitWindowKey key now w) =
          some ((assocFind st.counters (rateLimitWindowKey key now w)).getD 0 + 1)) := by
  refine ⟨fun client now key maxr w => rfl, fun now key maxr w => rfl, ?_, ?_⟩
  · intro st now key maxr w hw
    have hw' : (w == 0) = false := by simp [Nat.pos_iff_ne_zero.mp hw]
    simp only [check_rate_limit, Bool.false_eq_true, if_false, hw']
    by_cases hc : ((assocFind st.counters (rateLimitWindowKey key now w)).getD 0 + 1) == 1
    · simp [hc]
    · simp [hc]
  · intro st now key maxr w hw
    exact assocFind_assocSet _ _ _

/-- Witness for C6: four slots per minute, first call on an empty store is
allowed with 2 remaining and the window key gets counter 1 and expiry 60. -/
theorem C6_check_rate_limit_witness :
    (0 : Nat) < 60 ∧
    check_rate_limit false (some { counters := [], ttls := [] }) 0 "user1" 3 60 =
      ((true, 2),
       some { counters := [("rate_limit:user1:0", 1)], ttls := [("rate_limit:user1:0", 60)] }) := by
  refine ⟨by decide, ?_⟩
  have h := C6_check_rate_limit.2.2.1 { counters := [], ttls := [] } 0 "user1" 3 60 (by decide)
  rw [h]
  rfl

/-! #### Household-scoped queries (claim C1) -/

/-- Membership is preserved downwards through one optional filter. -/
theorem mem_maybeFilter {α β : Type} {q : List α} {o : Option β} {p : β → α → Bool} {a : α}
    (h : a ∈ maybeFilter q o p) : a ∈ q := by
  cases o with
  | none => exact h
  | some b => exact (List.mem_filter.mp h).1

/-- Membership in a stable insertion. -/
theorem mem_orderedInsert {α : Type} (le : α → α → Bool) (a x : α) (l : List α) :
    x ∈ orderedInsert le a l ↔ x ∈ a :: l := by
  induction l with
  | nil => simp [orderedInsert]
  | cons b tl ih =>
    by_cases h : le a b
    · simp [orderedInsert, h]
    · simp [orderedInsert, h, ih]
      tauto

/-- Sorting does not change the underlying set of rows. -/
theorem mem_insertionSortBy {α : Type} (le : α → α → Bool) (x : α) (l : List α) :
    x ∈ insertionSortBy le l ↔ x ∈ l := by
  induction l with
  | nil => simp [insertionSortBy]
  | cons a tl ih =>
    simp [insertionSortBy, mem_orderedInsert, ih]

/-- C1 (amended).  Every embedded household-scoped query except the
meal-plan-entry listing restricts its rows at the query layer: inventory
listing and lookup return only rows of the caller's household, and a meal
plan is visible only to its creator or its household.  The exception is
`GET /meal-plans/{id}/entries`: its query filters only by `meal_plan_id`, so
its result is independent of the caller (fourth conjunct) — a caller outside
the plan's household receives the same entries as a member. -/
theorem C1_household_scoping_amended :
    (∀ (db : InventoryDB) (u : User) (loc cat search : Option String)
        (eb ea : Option Int) (skip limit : Nat) (item : InventoryItem),
        item ∈ get_inventory_items db u loc cat search eb ea skip limit →
        some item.household_id = u.household_id) ∧
    (∀ (db : InventoryDB) (u : User) (iid : Nat) (item : InventoryItem),
        get_inventory_item db u iid = some item →
        item.id = iid ∧ some item.household_id = u.household_id) ∧
    (∀ (db : MealPlanDB) (u : User) (pid : Nat) (plan : MealPlan),
        get_meal_plan db u pid = some plan →
        plan.id = pid ∧ (plan.created_by = u.id ∨ some plan.household_id = u.household_id)) ∧
    (∀ (db : MealPlanDB) (u1 u2 : User) (pid : Nat) (d : Option Int) (mt : Option String),
        get_meal_plan_entries db u1 pid d mt = get_meal_plan_entries db u2 pid d mt) ∧
    (∀ (db : MealPlanDB) (u : User) (pid : Nat) (d : Option Int) (mt : Option String)
        (e : MealPlanEntry), e ∈ get_meal_plan_entries db u pid d mt → e.meal_plan_id = pid) := by
  refine ⟨?_, ?_, ?_, ?_, ?_⟩
  · intro db u loc cat search eb ea skip limit item h
    simp only [get_inventory_items] at h
    have h := List.mem_of_mem_take h
    have h := List.mem_of_mem_drop h
    have h := (mem_insertionSortBy _ _ _).mp h
    have h := mem_maybeFilter h
    have h := mem_maybeFilter h
    have h := mem_maybeFilter h
    have h := mem_maybeFilter h
    have h := mem_maybeFilter h
    simpa using (List.mem_filter.mp h).2
  · intro db u iid item h
    have hp := List.find?_some h
    simpa using hp
  · intro db u pid plan h
    have hp := List.find?_some h
    simp only [Bool.and_eq_true, Bool.or_eq_true, beq_iff_eq] at hp
    exact hp
  · intro db u1 u2 pid d mt
    rfl
  · intro db u pid d mt e h
    simp only [get_meal_plan_entries] at h
    have h := (mem_insertionSortBy _ _ _).mp h
    have h := mem_maybeFilter h
    have h := mem_maybeFilter h
    simpa using (List.mem_filter.mp h).2

/-- C1 counterexample.  A meal plan of household 1 has one entry; a user of
household 2 who did not create the plan lists its entries through
`GET /meal-plans/{id}/entries` and receives the entry — the query applies no
household restriction, although reading the plan header itself is denied
(`get_meal_plan` returns `none`, i.e. 404). -/
theorem C1_entries_cross_household_leak :
    get_meal_plan_entries
        { plans := [{ id := 1, household_id := 1, created_by := 10, name := "week",
                      start_date := 0, end_date := 6 }],
          entries := [{ id := 5, meal_plan_id := 1, date := 2, meal_type := "dinner" }] }
        { id := 99, username := "eve", email := "eve@example.com", household_id := some 2 }
        1 none none =
      [{ id := 5, meal_plan_id := 1, date := 2, meal_type := "dinner" }] ∧
    get_meal_plan
        { plans := [{ id := 1, household_id := 1, created_by := 10, name := "week",
                      start_date := 0, end_date := 6 }],
          entries := [{ id := 5, meal_plan_id := 1, date := 2, meal_type := "dinner" }] }
        { id := 99, username := "eve", email := "eve@example.com", household_id := some 2 }
        1 = none := by
  constructor
  · rfl
  · rfl

/-- Witness for C1: a household member's inventory listing only ever returns
rows of their own household, exercised on a two-household store. -/
theorem C1_household_scoping_witness :
    { id := 1, household_id := 1, added_by := 3, name := "milk", category := "general",
      quantity := 1, unit := "l", expiration_date := none, purchase_price := none,
      location := "fridge" } ∈
      get_inventory_items
        { items := [{ id := 1, household_id := 1, added_by := 3, name := "milk",
                      category := "general", quantity := 1, unit := "l",
                      expiration_date := none, purchase_price := none, location := "fridge" },
                    { id := 2, household_id := 2, added_by := 4, name := "eggs",
                      category := "general", quantity := 6, unit := "each",
                      expiration_date := none, purchase_price := none, location := "fridge" }],
          logs := [] }
        { id := 3, username := "ann", email := "ann@example.com", household_id := some 1 }
        none none none none none 0 100 ∧
    some (1 : Nat) =
      ({ id := 3, username := "ann", email := "ann@example.com",
         household_id := some 1 } : User).household_id := by
  constructor
  · decide
  · exact C1_household_scoping_amended.1
      { items := [{ id := 1, household_id := 1, added_by := 3, name := "milk",
                    category := "general", quantity := 1, unit := "l",
                    expiration_date := none, purchase_price := none, location := "fridge" },
                  { id := 2, household_id := 2, added_by := 4, name := "eggs",
                    category := "general", quantity := 6, unit := "each",
                    expiration_date := none, purchase_price := none, location := "fridge" }],
        logs := [] }
      { id := 3, username := "ann", email := "ann@example.com", household_id := some 1 }
      none none none none none 0 100
      { id := 1, household_id := 1, added_by := 3, name := "milk", category := "general",
        quantity := 1, unit := "l", expiration_date := none, purchase_price := none,
        location := "fridge" }
      (by decide)

/-! #### Inventory consumption (claim C2) -/

/-- C2 (confirmed).  Consuming quantity `q` of an item in the caller's
household always appends a `ConsumptionLog` row recording `q` and the
optional waste reason; the item is deleted when the decremented quantity is
≤ 0 (a subsequent household-scoped read returns none, i.e. 404) and
otherwise survives with quantity `Q − q`.  Consuming an item that is not in
the caller's household yields 404 and leaves the database unchanged (in
particular no log row is created). -/
theorem C2_log_consumption :
    ∀ (db : InventoryDB) (u : User) (item_id : Nat) (c : ConsumptionLogCreate),
      0 < c.quantity_used →
      (∀ item : InventoryItem,
        db.items.find? (fun i => i.id == item_id && some i.household_id == u.household_id) =
            some item →
        (log_consumption db u item_id c).1 =
            Except.ok { item_id := item_id, user_id := u.id,
                        quantity_used := c.quantity_used, waste_reason := c.waste_reason } ∧
        (log_consumption db u item_id c).2.logs =
            db.logs ++ [{ item_id := item_id, user_id := u.id,
                          quantity_used := c.quantity_used, waste_reason := c.waste_reason }] ∧
        (item.quantity - c.quantity_used ≤ 0 →
          get_inventory_item (log_consumption db u item_id c).2 u item_id = none) ∧
        (0 < item.quantity - c.quantity_used →
          get_inventory_item (log_consumption db u item_id c).2 u item_id =
            some { item with quantity := item.quantity - c.quantity_used })) ∧
      (db.items.find? (fun i => i.id == item_id && some i.household_id == u.household_id) =
          none →
        log_consumption db u item_id c = (Except.error 404, db)) := by
  intro db u item_id c _hq
  constructor
  · intro item hfind
    refine ⟨by simp [log_consumption, hfind], by simp [log_consumption, hfind], ?_, ?_⟩
    · intro hle
      simp only [log_consumption, hfind, get_inventory_item]
      rw [if_pos hle, List.find?_eq_none]
      intro x hx
      have hxid : (x.id == item_id) = false := by
        have := (List.mem_filter.mp hx).2
        simpa using this
      simp [hxid]
    · intro hpos
      have hne : ¬(item.quantity - c.quantity_used ≤ 0) := not_le.mpr hpos
      have hid : (item.id == item_id) = true := by
        have := List.find?_some hfind
        exact (Bool.and_eq_true .. ▸ this).1
      simp only [log_consumption, hfind, get_inventory_item]
      rw [if_neg hne, List.find?_map]
      have hcomp :
          (fun i : InventoryItem =>
              (fun j : InventoryItem => j.id == item_id && some j.household_id == u.household_id)
                (if i.id == item_id then { i with quantity := item.quantity - c.quantity_used }
                 else i)) =
            (fun i : InventoryItem => i.id == item_id && some i.household_id == u.household_id) := by
        funext i
        by_cases h : i.id == item_id <;> simp [h]
      rw [Function.comp_def, hcomp, hfind]
      show some (if (item.id == item_id) = true
          then { item with quantity := item.quantity - c.quantity_used } else item) =
        some { item with quantity := item.quantity - c.quantity_used }
      rw [if_pos hid]
  · intro hnone
    simp [log_consumption, hnone]

/-- Witness for C2: on an item with quantity 2.000, consuming 0.500 leaves
quantity 1.500, and consuming 2.000 instead deletes the row (the subsequent
read returns none). -/
theorem C2_log_consumption_witness :
    (0 : ℚ) < 1/2 ∧
    get_inventory_item
        (log_consumption
          { items := [{ id := 1, household_id := 1, added_by := 3, name := "milk",
                        category := "general", quantity := 2, unit := "each",
                        expiration_date := none, purchase_price := none, location := "pantry" }],
            logs := [] }
          { id := 3, username := "ann", email := "ann@example.com", household_id := some 1 }
          1 { quantity_used := 1/2, waste_reason := none }).2
        { id := 3, username := "ann", email := "ann@example.com", household_id := some 1 } 1 =
      some { id := 1, household_id := 1, added_by := 3, name := "milk", category := "general",
             quantity := 3/2, unit := "each", expiration_date := none, purchase_price := none,
             location := "pantry" } ∧
    get_inventory_item
        (log_consumption
          { items := [{ id := 1, household_id := 1, added_by := 3, name := "milk",
                        category := "general", quantity := 2, unit := "each",
                        expiration_date := none, purchase_price := none, location := "pantry" }],
            logs := [] }
          { id := 3, username := "ann", email := "ann@example.com", household_id := some 1 }
          1 { quantity_used := 2, waste_reason := some "used" }).2
        { id := 3, username := "ann", email := "ann@example.com", household_id := some 1 } 1 =
      none := by
  refine ⟨by norm_num, ?_, ?_⟩
  · have h := ((C2_log_consumption
        { items := [{ id := 1, household_id := 1, added_by := 3, name := "milk",
                      category := "general", quantity := 2, unit := "each",
                      expiration_date := none, purchase_price := none, location := "pantry" }],
          logs := [] }
        { id := 3, username := "ann", email := "ann@example.com", household_id := some 1 }
        1 { quantity_used := 1/2, waste_reason := none } (by norm_num)).1
        { id := 1, household_id := 1, added_by := 3, name := "milk", category := "general",
          quantity := 2, unit := "each", expiration_date := none, purchase_price := none,
          location := "pantry" } rfl).2.2.2 (by norm_num)
    have hq : (2 : ℚ) - 1/2 = 3/2 := by norm_num
    rw [h, hq]
  · exact ((C2_log_consumption
        { items := [{ id := 1, household_id := 1, added_by := 3, name := "milk",
                      category := "general", quantity := 2, unit := "each",
                      expiration_date := none, purchase_price := none, location := "pantry" }],
          logs := [] }
        { id := 3, username := "ann", email := "ann@example.com", household_id := some 1 }
        1 { quantity_used := 2, waste_reason := some "used" } (by norm_num)).1
        { id := 1, household_id := 1, added_by := 3, name := "milk", category := "general",
          quantity := 2, unit := "each", expiration_date := none, purchase_price := none,
          location := "pantry" } rfl).2.2.1 (by norm_num)

/-! #### Recipe reviews (claim C3) -/

/-- C3 (confirmed).  A freshly created recipe has `review_count = 0` and no
average rating; adding a review to a visible recipe appends the review row,
sets `avg_rating` to the arithmetic mean (sum over length) of all review
ratings now stored for that recipe — the new one included — and increments
`review_count` by exactly 1; an invisible recipe yields 404 with the
database unchanged.  The last conjunct runs the claim's example: ratings 4
then 5 produce `avg_rating = 4.5` and `review_count = 2`. -/
theorem C3_review_recomputation :
    (∀ (db : RecipeDB) (u : User) (hid fresh : Nat) (data : RecipeCreate),
        (create_recipe db u hid fresh data).1.review_count = 0 ∧
        (create_recipe db u hid fresh data).1.avg_rating = none) ∧
    (∀ (db : RecipeDB) (u : User) (rid : Nat) (rating : ℚ) (recipe : Recipe),
        db.recipes.find? (fun r =>
            r.id == rid && (r.is_public || some r.household_id == u.household_id)) =
          some recipe →
        (add_recipe_review db u rid rating).1 =
            Except.ok { recipe_id := rid, user_id := u.id, rating := rating } ∧
        (add_recipe_review db u rid rating).2.reviews =
            db.reviews ++ [{ recipe_id := rid, user_id := u.id, rating := rating }] ∧
        (add_recipe_review db u rid rating).2.recipes =
            db.recipes.map (fun r =>
              if r.id == rid then
                { r with
                  avg_rating := some
                    ((ratingsFor (add_recipe_review db u rid rating).2.reviews rid).sum /
                      ((ratingsFor (add_recipe_review db u rid rating).2.reviews rid).length : ℚ)),
                  review_count := r.review_count + 1 }
              else r)) ∧
    (∀ (db : RecipeDB) (u : User) (rid : Nat) (rating : ℚ),
        db.recipes.find? (fun r =>
            r.id == rid && (r.is_public || some r.household_id == u.household_id)) = none →
        add_recipe_review db u rid rating = (Except.error 404, db)) ∧
    ((add_recipe_review
        (add_recipe_review
          { recipes := [{ id := 1, created_by := 7, household_id := 1, is_public := false,
                          title := "pie", avg_rating := none, review_count := 0 }],
            ingredients := [], steps := [], reviews := [] }
          { id := 8, username := "bea", email := "bea@example.com", household_id := some 1 }
          1 4).2
        { id := 8, username := "bea", email := "bea@example.com", household_id := some 1 }
        1 5).2.recipes =
      [{ id := 1, created_by := 7, household_id := 1, is_public := false, title := "pie",
         avg_rating := some (9/2), review_count := 2 }]) := by
  refine ⟨?_, ?_, ?_, ?_⟩
  · intro db u hid fresh data
    exact ⟨rfl, rfl⟩
  · intro db u rid rating recipe hfind
    refine ⟨?_, ?_, ?_⟩
    · simp [add_recipe_review, hfind]
    · simp [add_recipe_review, hfind]
    · simp [add_recipe_review, hfind]
  · intro db u rid rating hnone
    simp [add_recipe_review, hnone]
  · simp [add_recipe_review, ratingsFor]
    norm_num

/-- Witness for C3: a member of household 1 reviews the private recipe 1
with rating 4; the stored review list becomes exactly that one review. -/
theorem C3_review_recomputation_witness :
    (add_recipe_review
        { recipes := [{ id := 1, created_by := 7, household_id := 1, is_public := false,
                        title := "pie", avg_rating := none, review_count := 0 }],
          ingredients := [], steps := [], reviews := [] }
        { id := 8, username := "bea", email := "bea@example.com", household_id := some 1 }
        1 4).2.reviews = [{ recipe_id := 1, user_id := 8, rating := 4 }] := by
  have h := (C3_review_recomputation.2.1
      { recipes := [{ id := 1, created_by := 7, household_id := 1, is_public := false,
                      title := "pie", avg_rating := none, review_count := 0 }],
        ingredients := [], steps := [], reviews := [] }
      { id := 8, username := "bea", email := "bea@example.com", household_id := some 1 }
      1 4
      { id := 1, created_by := 7, household_id := 1, is_public := false,
        title := "pie", avg_rating := none, review_count := 0 } rfl).2.1
  simpa using h

/-! #### Recipe update children (claim C8) -/

/-- C8 (code bug).  The claim — and the source's own comment "Delete existing
ingredients" — call for wholesale replacement of the child rows, but the
statement under that comment executes `db.execute(select(...))`, a read, so
the old children survive.  Updating a one-ingredient recipe (`flour`) with
the supplied list `[sugar]` leaves the recipe with both rows instead of
exactly the supplied list.  The creator-only part of the claim does hold: a
non-creator receives 404 (second conjunct). -/
theorem C8_update_recipe_keeps_old_children :
    (update_recipe
        { recipes := [{ id := 1, created_by := 7, household_id := 1, is_public := false,
                        title := "pie", avg_rating := none, review_count := 0 }],
          ingredients := [{ recipe_id := 1, name := "flour" }], steps := [], reviews := [] }
        { id := 7, username := "bob", email := "bob@example.com", household_id := some 1 }
        1 { title := none, ingredients := some [{ name := "sugar" }], steps := none }).2.ingredients =
      [{ recipe_id := 1, name := "flour" }, { recipe_id := 1, name := "sugar" }] ∧
    (update_recipe
        { recipes := [{ id := 1, created_by := 7, household_id := 1, is_public := false,
                        title := "pie", avg_rating := none, review_count := 0 }],
          ingredients := [{ recipe_id := 1, name := "flour" }], steps := [], reviews := [] }
        { id := 9, username := "eve", email := "eve@example.com", household_id := some 1 }
        1 { title := none, ingredients := some [{ name := "sugar" }], steps := none }).1 =
      Except.error 404 := by
  exact ⟨rfl, rfl⟩

/-! #### Waste forecast (claim C7) -/

/-- The forecast loop keeps exactly the expiring items with a truthy
purchase price, pairing each with its estimated lost value. -/
theorem wasteRiskEntries_eq (l : List InventoryItem) :
    wasteRiskEntries l =
      (l.filter (fun item =>
          match item.purchase_price with
          | some p => !(p == 0)
          | none => false)).map
        (fun item => (item, item.purchase_price.getD 0 * (item.quantity / max item.quantity 1))) := by
  induction l with
  | nil => rfl
  | cons a tl ih =>
    simp only [wasteRiskEntries, beq_iff_eq] at ih ⊢
    cases hp : a.purchase_price with
    | none => simp [List.filterMap_cons, hp, ih]
    | some p =>
      by_cases h0 : p == 0
      · simp_all [List.filterMap_cons, hp, h0]
      · simp_all [List.filterMap_cons, hp, h0]

/-- C7 (amended).  With no AI service attached the heuristic forecast runs
(first conjunct); `total_items_at_risk` counts only the expiring items whose
purchase price is present and non-zero — an item without a purchase price
contributes to neither the count nor the value total (unlike the claim's
"contributes to the count") — each counted item contributes
`purchase_price × (quantity / max(quantity, 1))` to `estimated_waste_value`,
the confidence score is the fixed 0.7, and the recommendations list is
non-empty exactly when at least one priced item is at risk. -/
theorem C7_waste_forecast_amended :
    ∀ (db : InventoryDB) (hid : Nat) (today days_ahead : Int),
      (forecast_waste none db hid today days_ahead =
        simple_waste_forecast db hid today days_ahead) ∧
      ((simple_waste_forecast db hid today days_ahead).total_items_at_risk =
        ((get_expiring_items db hid today days_ahead).filter (fun item =>
            match item.purchase_price with
            | some p => !(p == 0)
            | none => false)).length) ∧
      ((simple_waste_forecast db hid today days_ahead).estimated_waste_value =
        (((get_expiring_items db hid today days_ahead).filter (fun item =>
            match item.purchase_price with
            | some p => !(p == 0)
            | none => false)).map
          (fun item =>
            item.purchase_price.getD 0 * (item.quantity / max item.quantity 1))).sum) ∧
      ((simple_waste_forecast db hid today days_ahead).confidence_score = 7 / 10) ∧
      ((simple_waste_forecast db hid today days_ahead).recommendations ≠ [] ↔
        ((get_expiring_items db hid today days_ahead).filter (fun item =>
            match item.purchase_price with
            | some p => !(p == 0)
            | none => false)) ≠ []) := by
  intro db hid today days_ahead
  refine ⟨rfl, ?_, ?_, rfl, ?_⟩
  · simp [simple_waste_forecast, wasteRiskEntries_eq]
  · simp only [simple_waste_forecast, wasteRiskEntries_eq, List.map_map]
    rfl
  · simp only [simple_waste_forecast, wasteRiskEntries_eq]
    by_cases h : ((get_expiring_items db hid today days_ahead).filter (fun item =>
        match item.purchase_price with
        | some p => !(p == 0)
        | none => false)) = []
    · simp [h]
    · simp [h, List.isEmpty_iff]

/-- C7 counterexample.  Two items of household 1 expire within the window,
one with purchase price 3.00 and quantity 2, one with no purchase price.
The heuristic forecast reports `total_items_at_risk = 1`, not 2: the
unpriced item is skipped before the `items_at_risk` list is built, so it
contributes to neither the count nor the value total, contradicting the
claim that it "contributes to the count but not to the value total".  The
priced item contributes `3 × (2 / max(2,1)) = 3` to the value. -/
theorem C7_unpriced_item_not_counted :
    (simple_waste_forecast
        { items := [{ id := 1, household_id := 1, added_by := 3, name := "yogurt",
                      category := "dairy", quantity := 2, unit := "each",
                      expiration_date := some 2, purchase_price := some 3, location := "fridge" },
                    { id := 2, household_id := 1, added_by := 3, name := "spinach",
                      category := "produce", quantity := 2, unit := "bag",
                      expiration_date := some 2, purchase_price := none, location := "fridge" }],
          logs := [] } 1 0 7).total_items_at_risk = 1 ∧
    (get_expiring_items
        { items := [{ id := 1, household_id := 1, added_by := 3, name := "yogurt",
                      category := "dairy", quantity := 2, unit := "each",
                      expiration_date := some 2, purchase_price := some 3, location := "fridge" },
                    { id := 2, household_id := 1, added_by := 3, name := "spinach",
                      category := "produce", quantity := 2, unit := "bag",
                      expiration_date := some 2, purchase_price := none, location := "fridge" }],
          logs := [] } 1 0 7).length = 2 ∧
    (simple_waste_forecast
        { items := [{ id := 1, household_id := 1, added_by := 3, name := "yogurt",
                      category := "dairy", quantity := 2, unit := "each",
                      expiration_date := some 2, purchase_price := some 3, location := "fridge" },
                    { id := 2, household_id := 1, added_by := 3, name := "spinach",
                      category := "produce", quantity := 2, unit := "bag",
                      expiration_date := some 2, purchase_price := none, location := "fridge" }],
          logs := [] } 1 0 7).estimated_waste_value = 3 := by
  refine ⟨?_, ?_, ?_⟩ <;>
    norm_num [simple_waste_forecast, get_expiring_items, wasteRiskEntries, insertionSortBy,
      orderedInsert, dateLe, expAscLe, List.filterMap_cons, List.filter_cons]

/-! #### Household invite/join (claim C4) -/

/-- Appending strings appends their character data. -/
theorem data_append (s t : String) : (String.append s t).data = s.data ++ t.data := by
  cases s
  cases t
  rfl

/-- Splitting a separator-free list yields that list alone. -/
theorem splitChar_sepFree (c : Char) (l : List Char) (h : ∀ x ∈ l, x ≠ c) :
    splitChar c l = [l] := by
  induction l with
  | nil => rfl
  | cons x xs ih =>
    have hx : x ≠ c := h x (by simp)
    have ih' := ih (fun y hy => h y (by simp [hy]))
    simp [splitChar, hx, ih']

/-- Splitting peels off a separator-free prefix at the first separator. -/
theorem splitChar_append (c : Char) (a b : List Char) (h : ∀ x ∈ a, x ≠ c) :
    splitChar c (a ++ c :: b) = a :: splitChar c b := by
  induction a with
  | nil => simp [splitChar]
  | cons x xs ih =>
    have hx : x ≠ c := h x (by simp)
    have ih' := ih (fun y hy => h y (by simp [hy]))
    simp [splitChar, hx, ih']

/-- A composed invitation token splits into exactly its three parts as long
as neither rendered id contains an underscore. -/
theorem splitOnUnderscore_invite (hidS uidS : String)
    (h1 : ∀ x ∈ hidS.data, x ≠ '_') (h2 : ∀ x ∈ uidS.data, x ≠ '_') :
    splitOnUnderscore
        (String.append (String.append (String.append "invite_" hidS) "_") uidS) =
      ["invite", hidS, uidS] := by
  have hdata : (String.append (String.append (String.append "invite_" hidS) "_") uidS).data =
      "invite".data ++ '_' :: (hidS.data ++ '_' :: uidS.data) := by
    rw [data_append, data_append, data_append]
    show ("invite".data ++ ['_']) ++ hidS.data ++ ['_'] ++ uidS.data = _
    simp [List.append_assoc]
  unfold splitOnUnderscore
  rw [hdata, splitChar_append '_' "invite".data _ (by decide),
    splitChar_append '_' hidS.data _ h1, splitChar_sepFree '_' uidS.data h2]
  rfl

/-- C4 (amended).  Invite composes and returns the self-describing token
`invite_{household_id}_{invited_user_id}`, and join run by the invited user
on that exact token attaches them to the household.  Join partitions every
input token into exactly one outcome, but the claim's list of outcomes is
incomplete: a malformed token (not three underscore-separated parts starting
with `invite`) yields 400; a token embedding a different user yields 403; a
caller already in a household yields 400; an unknown household yields 404;
and — the case the claim misses — a structurally valid token whose household
part does not parse as an id escapes the handler as an unhandled error
(500), because the `UUID` constructor runs outside the `try` block. -/
theorem C4_invite_join_amended :
    (∀ (db : UserDB) (u : User) (email : String) (hid : Nat) (owned : Household)
        (invited : User),
        u.household_id = some hid →
        db.households.find? (fun h => h.owner_id == u.id) = some owned →
        db.users.find? (fun x => x.email == email) = some invited →
        invited.household_id = none →
        invite_to_household db u email =
          Except.ok (String.append (String.append (String.append "invite_" (toString hid)) "_")
            (toString invited.id))) ∧
    (∀ (db : UserDB) (invited : User) (hid : Nat) (h : Household),
        invited.household_id = none →
        (∀ x ∈ (toString hid).data, x ≠ '_') →
        (∀ x ∈ (toString invited.id).data, x ≠ '_') →
        parse_uuid? (toString hid) = some hid →
        db.households.find? (fun hh => hh.id == hid) = some h →
        join_household db invited
            (String.append (String.append (String.append "invite_" (toString hid)) "_")
              (toString invited.id)) =
          (Except.ok h,
           { db with users := db.users.map (fun x =>
               if x.id == invited.id then { x with household_id := some h.id } else x) })) ∧
    (∀ (db : UserDB) (u : User) (tok : String),
        (splitOnUnderscore tok).length ≠ 3 ∨ (splitOnUnderscore tok).getD 0 "" ≠ "invite" →
        join_household db u tok = (Except.error 400, db)) ∧
    (∀ (db : UserDB) (u : User) (tok : String) (p1 p2 : String),
        splitOnUnderscore tok = ["invite", p1, p2] →
        p2 ≠ toString u.id →
        join_household db u tok = (Except.error 403, db)) ∧
    (∀ (db : UserDB) (u : User) (tok : String) (p1 : String),
        splitOnUnderscore tok = ["invite", p1, toString u.id] →
        u.household_id.isSome = true →
        join_household db u tok = (Except.error 400, db)) ∧
    (∀ (db : UserDB) (u : User) (tok : String) (p1 : String),
        splitOnUnderscore tok = ["invite", p1, toString u.id] →
        u.household_id = none →
        parse_uuid? p1 = none →
        join_household db u tok = (Except.error 500, db)) ∧
    (∀ (db : UserDB) (u : User) (tok : String) (p1 : String) (hid : Nat),
        splitOnUnderscore tok = ["invite", p1, toString u.id] →
        u.household_id = none →
        parse_uuid? p1 = some hid →
        db.households.find? (fun hh => hh.id == hid) = none →
        join_household db u tok = (Except.error 404, db)) := by
  refine ⟨?_, ?_, ?_, ?_, ?_, ?_, ?_⟩
  · intro db u email hid owned invited h1 h2 h3 h4
    simp [invite_to_household, h1, h2, h3, h4]
  · intro db invited hid h hnone hu1 hu2 hparse hfind
    have hsplit := splitOnUnderscore_invite (toString hid) (toString invited.id) hu1 hu2
    simp [join_household, hsplit, hnone, hparse, hfind]
  · intro db u tok hbad
    rcases hsp : splitOnUnderscore tok with _ | ⟨p0, _ | ⟨p1, _ | ⟨p2, _ | ⟨p3, rest⟩⟩⟩⟩
    · simp [join_household, hsp]
    · simp [join_household, hsp]
    · simp [join_household, hsp]
    · rw [hsp] at hbad
      rcases hbad with hh | hh
      · simp at hh
      · have hh' : p0 ≠ "invite" := by simpa [List.getD] using hh
        simp [join_household, hsp, hh']
    · have hlen : (p0 :: p1 :: p2 :: p3 :: rest).length ≠ 3 := by simp
      simp [join_household, hsp, hlen]
  · intro db u tok p1 p2 hsp hne
    have hne' : ¬ toString u.id = p2 := fun hh => hne hh.symm
    simp [join_household, hsp, hne']
  · intro db u tok p1 hsp hsome
    simp [join_household, hsp, hsome]
  · intro db u tok p1 hsp hnone hparse
    simp [join_household, hsp, hnone, hparse]
  · intro db u tok p1 hid hsp hnone hparse hfind
    simp [join_household, hsp, hnone, hparse, hfind]

/-- C4 counterexample.  The token `invite_x_7`, presented by the embedded
user 7 who has no household yet, passes the three-part structural check and
the user check, but its household part `x` is not a valid id: the `UUID`
constructor raises outside the `try` block and the request ends as an
unhandled 500 — an outcome missing from the claim's exhaustive list of
400/403/400/404/success. -/
theorem C4_join_unparsable_household_500 :
    join_household
        { users := [{ id := 7, username := "user2", email := "user2@example.com",
                      household_id := none }],
          households := [{ id := 1, owner_id := 5, name := "Household1" }] }
        { id := 7, username := "user2", email := "user2@example.com", household_id := none }
        "invite_x_7" =
      (Except.error 500,
       { users := [{ id := 7, username := "user2", email := "user2@example.com",
                     household_id := none }],
         households := [{ id := 1, owner_id := 5, name := "Household1" }] }) := by
  rfl

/-- Witness for C4: the round trip at concrete ids — user 5 owning household
1 invites user 7, obtaining `invite_1_7`; user 7 joins with that exact token
and is attached to household 1. -/
theorem C4_invite_join_witness :
    invite_to_household
        { users := [{ id := 5, username := "user1", email := "user1@example.com",
                      household_id := some 1 },
                    { id := 7, username := "user2", email := "user2@example.com",
                      household_id := none }],
          households := [{ id := 1, owner_id := 5, name := "Household1" }] }
        { id := 5, username := "user1", email := "user1@example.com", household_id := some 1 }
        "user2@example.com" =
      Except.ok "invite_1_7" ∧
    join_household
        { users := [{ id := 5, username := "user1", email := "user1@example.com",
                      household_id := some 1 },
                    { id := 7, username := "user2", email := "user2@example.com",
                      household_id := none }],
          households := [{ id := 1, owner_id := 5, name := "Household1" }] }
        { id := 7, username := "user2", email := "user2@example.com", household_id := none }
        "invite_1_7" =
      (Except.ok { id := 1, owner_id := 5, name := "Household1" },
       { users := [{ id := 5, username := "user1", email := "user1@example.com",
                     household_id := some 1 },
                   { id := 7, username := "user2", email := "user2@example.com",
                     household_id := some 1 }],
         households := [{ id := 1, owner_id := 5, name := "Household1" }] }) := by
  constructor
  · have h := C4_invite_join_amended.1
      { users := [{ id := 5, username := "user1", email := "user1@example.com",
                    household_id := some 1 },
                  { id := 7, username := "user2", email := "user2@example.com",
                    household_id := none }],
        households := [{ id := 1, owner_id := 5, name := "Household1" }] }
      { id := 5, username := "user1", email := "user1@example.com", household_id := some 1 }
      "user2@example.com" 1 { id := 1, owner_id := 5, name := "Household1" }
      { id := 7, username := "user2", email := "user2@example.com", household_id := none }
      rfl rfl rfl rfl
    rw [h]
    rfl
  · have h := C4_invite_join_amended.2.1
      { users := [{ id := 5, username := "user1", email := "user1@example.com",
                    household_id := some 1 },
                  { id := 7, username := "user2", email := "user2@example.com",
                    household_id := none }],
        households := [{ id := 1, owner_id := 5, name := "Household1" }] }
      { id := 7, username := "user2", email := "user2@example.com", household_id := none }
      1 { id := 1, owner_id := 5, name := "Household1" }
      rfl (by decide) (by decide) (by decide) rfl
    rw [show "invite_1_7" =
        String.append (String.append (String.append "invite_" (toString 1)) "_") (toString 7)
      from rfl, h]
    rfl

/-! #### Notification registry (claims C9 and C10) -/

/-- Lookup after overwriting a key. -/
theorem lookupH_setH (reg : Registry) (hid h' : Nat) (l : List Conn) :
    lookupH (setH reg hid l) h' =
      if h' = hid then (lookupH reg hid).map (fun _ => l) else lookupH reg h' := by
  induction reg with
  | nil => by_cases h : h' = hid <;> simp [setH, lookupH, h]
  | cons p rest ih =>
    obtain ⟨k, v⟩ := p
    by_cases hk : k = hid
    · subst hk
      by_cases hh : h' = k
      · subst hh
        simp [setH, lookupH]
      · simp [setH, lookupH, hh, Ne.symm hh, ih]
    · by_cases hh : h' = k
      · subst hh
        simp [setH, lookupH, hk, Ne.symm hk]
      · simp [setH, lookupH, hk, Ne.symm hh, ih]

/-- Lookup after deleting a key. -/
theorem lookupH_delH (reg : Registry) (hid h' : Nat) :
    lookupH (delH reg hid) h' = if h' = hid then none else lookupH reg h' := by
  induction reg with
  | nil => by_cases h : h' = hid <;> simp [delH, lookupH, h]
  | cons p rest ih =>
    obtain ⟨k, v⟩ := p
    by_cases hk : k = hid
    · subst hk
      by_cases hh : h' = k
      · subst hh
        simp [delH, lookupH, ih]
      · simp [delH, lookupH, hh, Ne.symm hh, ih]
    · by_cases hh : h' = k
      · subst hh
        simp [delH, lookupH, hk, Ne.symm hk]
      · simp [delH, lookupH, hk, Ne.symm hh, ih]

/-- Lookup looks left-to-right through an appended entry. -/
theorem lookupH_append_of_none (reg : Registry) (k : Nat) (l : List Conn) (h' : Nat)
    (h : lookupH reg h' = none) :
    lookupH (reg ++ [(k, l)]) h' = if h' = k then some l else none := by
  induction reg with
  | nil =>
    by_cases hh : h' = k
    · subst hh
      simp [lookupH]
    · simp [lookupH, Ne.symm hh, hh]
  | cons p rest ih =>
    obtain ⟨k', v⟩ := p
    by_cases hk : k' = h'
    · subst hk
      simp [lookupH] at h
    · simp only [lookupH, List.cons_append, beq_iff_eq, hk, if_false] at h ⊢
      exact ih h

/-- Lookup is unchanged by an appended entry when the key is already
present. -/
theorem lookupH_append_of_some (reg : Registry) (k : Nat) (l : List Conn) (h' : Nat)
    (x : List Conn) (h : lookupH reg h' = some x) :
    lookupH (reg ++ [(k, l)]) h' = some x := by
  induction reg with
  | nil => simp [lookupH] at h
  | cons p rest ih =>
    obtain ⟨k', v⟩ := p
    by_cases hk : k' = h'
    · subst hk
      simp [lookupH] at h ⊢
      exact h
    · simp only [lookupH, List.cons_append, beq_iff_eq, hk, if_false] at h ⊢
      exact ih h

/-- Overwriting preserves the key sequence. -/
theorem keys_setH (reg : Registry) (hid : Nat) (l : List Conn) :
    (setH reg hid l).map Prod.fst = reg.map Prod.fst := by
  induction reg with
  | nil => rfl
  | cons p rest ih =>
    obtain ⟨k, v⟩ := p
    by_cases hk : k = hid <;> simp [setH, hk, ih]

/-- Deleting a key filters the key sequence. -/
theorem keys_delH (reg : Registry) (hid : Nat) :
    (delH reg hid).map Prod.fst = (reg.map Prod.fst).filter (fun k => !(k == hid)) := by
  induction reg with
  | nil => rfl
  | cons p rest ih =>
    obtain ⟨k, v⟩ := p
    by_cases hk : k = hid <;> simp [delH, List.filter_cons, hk, ih]

/-- Absent keys are exactly those a lookup misses. -/
theorem lookupH_eq_none_iff (reg : Registry) (h' : Nat) :
    lookupH reg h' = none ↔ h' ∉ reg.map Prod.fst := by
  induction reg with
  | nil => simp [lookupH]
  | cons p rest ih =>
    obtain ⟨k, v⟩ := p
    by_cases hk : k = h'
    · subst hk
      simp [lookupH]
    · simp [lookupH, hk, Ne.symm hk, ih]

/-- A successful lookup exhibits a registry entry. -/
theorem lookupH_some_mem (reg : Registry) (h' : Nat) (l : List Conn)
    (h : lookupH reg h' = some l) : (h', l) ∈ reg := by
  induction reg with
  | nil => simp [lookupH] at h
  | cons p rest ih =>
    obtain ⟨k, v⟩ := p
    by_cases hk : k = h'
    · subst hk
      simp [lookupH] at h
      simp [h]
    · simp only [lookupH, beq_iff_eq, hk, if_false] at h
      exact List.mem_cons_of_mem _ (ih h)

/-- Every entry after an overwrite either carries the written value or was
already present. -/
theorem mem_setH (reg : Registry) (hid : Nat) (l : List Conn) :
    ∀ q ∈ setH reg hid l, q.2 = l ∨ q ∈ reg := by
  induction reg with
  | nil => simp [setH]
  | cons p rest ih =>
    obtain ⟨k, v⟩ := p
    intro q hq
    by_cases hk : k = hid
    · subst hk
      simp only [setH, beq_self_eq_true, if_true, List.mem_cons] at hq
      rcases hq with hq | hq
      · left
        simp [hq]
      · rcases ih q hq with hh | hh
        · exact Or.inl hh
        · exact Or.inr (List.mem_cons_of_mem _ hh)
    · simp only [setH, beq_iff_eq, hk, if_false, List.mem_cons] at hq
      rcases hq with hq | hq
      · exact Or.inr (by simp [hq])
      · rcases ih q hq with hh | hh
        · exact Or.inl hh
        · exact Or.inr (List.mem_cons_of_mem _ hh)

/-- Entries surviving a key deletion were already present. -/
theorem mem_delH (reg : Registry) (hid : Nat) :
    ∀ q ∈ delH reg hid, q ∈ reg := by
  induction reg with
  | nil => simp [delH]
  | cons p rest ih =>
    obtain ⟨k, v⟩ := p
    intro q hq
    by_cases hk : k = hid
    · subst hk
      simp only [delH, beq_self_eq_true, if_true] at hq
      exact List.mem_cons_of_mem _ (ih q hq)
    · simp only [delH, beq_iff_eq, hk, if_false, List.mem_cons] at hq
      rcases hq with hq | hq
      · simp [hq]
      · exact List.mem_cons_of_mem _ (ih q hq)

/-- Overwriting an absent key is a no-op. -/
theorem setH_of_not_mem (reg : Registry) (hid : Nat) (l : List Conn)
    (h : hid ∉ reg.map Prod.fst) : setH reg hid l = reg := by
  induction reg with
  | nil => rfl
  | cons p rest ih =>
    obtain ⟨k, v⟩ := p
    simp only [List.map_cons, List.mem_cons] at h
    push_neg at h
    simp [setH, Ne.symm h.1, ih h.2]

/-- Writing back the value a unique key already holds is a no-op. -/
theorem setH_lookup_self (reg : Registry) (hid : Nat) (l : List Conn)
    (hnd : (reg.map Prod.fst).Nodup) (hl : lookupH reg hid = some l) :
    setH reg hid l = reg := by
  induction reg with
  | nil => simp [lookupH] at hl
  | cons p rest ih =>
    obtain ⟨k, v⟩ := p
    rw [List.map_cons] at hnd
    by_cases hk : k = hid
    · subst hk
      simp only [lookupH, beq_self_eq_true, if_true, Option.some.injEq] at hl
      have hknot : k ∉ rest.map Prod.fst := (List.nodup_cons.mp hnd).1
      simp [setH, setH_of_not_mem rest k l hknot, hl]
    · simp only [lookupH, beq_iff_eq, hk, if_false] at hl
      have hnd' : (rest.map Prod.fst).Nodup := (List.nodup_cons.mp hnd).2
      simp [setH, hk, ih hnd' hl]

/-- Effect of one disconnect on the per-household connection view. -/
theorem connsOf_disconnect (ns : NotificationService) (hid : Nat) (ws : Conn) (h' : Nat) :
    connsOf (disconnect_websocket ns hid ws) h' =
      if h' = hid then (connsOf ns hid).erase ws else connsOf ns h' := by
  unfold disconnect_websocket connsOf
  cases hl : lookupH ns.active_connections hid with
  | none =>
    by_cases hh : h' = hid
    · subst hh
      simp [hl]
    · simp [hh]
  | some l =>
    by_cases he : (l.erase ws).isEmpty
    · simp only [he, if_true]
      by_cases hh : h' = hid
      · subst hh
        simp [lookupH_delH, hl, List.isEmpty_iff.mp he]
      · simp [lookupH_delH, hh]
    · simp only [he, Bool.false_eq_true, if_false]
      by_cases hh : h' = hid
      · subst hh
        simp [lookupH_setH, hl]
      · simp [lookupH_setH, hh]

/-- Effect of disconnecting a batch of sockets on the per-household view. -/
theorem connsOf_foldl_disconnect (D : List Conn) (ns : NotificationService) (hid h' : Nat) :
    connsOf (D.foldl (fun acc ws => disconnect_websocket acc hid ws) ns) h' =
      if h' = hid then D.foldl (fun l ws => l.erase ws) (connsOf ns hid)
      else connsOf ns h' := by
  induction D generalizing ns with
  | nil => by_cases hh : h' = hid <;> simp [hh]
  | cons a tl ih =>
    simp only [List.foldl_cons]
    rw [ih]
    by_cases hh : h' = hid
    · subst hh
      simp [connsOf_disconnect]
    · simp [hh, connsOf_disconnect]

/-- The send loop partitions the non-excluded connections by send success. -/
theorem sendLoop_eq (excl : Option Nat) (fails : Conn → Bool) (l : List Conn) :
    sendLoop excl fails l =
      (l.filter (fun ws => !isExcluded excl ws && !fails ws),
       l.filter (fun ws => !isExcluded excl ws && fails ws)) := by
  induction l with
  | nil => rfl
  | cons a tl ih =>
    by_cases he : isExcluded excl a
    · simp [sendLoop, List.filter_cons, he, ih]
    · by_cases hf : fails a
      · simp [sendLoop, List.filter_cons, he, hf, ih]
      · simp [sendLoop, List.filter_cons, he, hf, ih]

/-- Erasing a batch never introduces members. -/
theorem mem_foldl_erase {a : Conn} (D l : List Conn)
    (h : a ∈ D.foldl (fun acc ws => acc.erase ws) l) : a ∈ l := by
  induction D generalizing l with
  | nil => simpa using h
  | cons b tl ih =>
    simp only [List.foldl_cons] at h
    exact List.mem_of_mem_erase (ih _ h)

/-- On a duplicate-free list, erasing a batch removes each of its members. -/
theorem not_mem_foldl_erase {a : Conn} (D l : List Conn) (hnd : l.Nodup) (ha : a ∈ D) :
    a ∉ D.foldl (fun acc ws => acc.erase ws) l := by
  induction D generalizing l with
  | nil => cases ha
  | cons b tl ih =>
    simp only [List.foldl_cons]
    rcases List.mem_cons.mp ha with hab | ha'
    · subst hab
      intro hmem
      have := mem_foldl_erase tl (l.erase a) hmem
      exact (hnd.mem_erase_iff.mp this).1 rfl
    · exact ih _ (hnd.erase b) ha'

/-- Connect preserves registry well-formedness. -/
theorem wf_connect (ns : NotificationService) (hid : Nat) (ws : Conn)
    (h : RegistryWf ns.active_connections) :
    RegistryWf (connect_websocket ns hid ws).active_connections := by
  unfold connect_websocket
  cases hl : lookupH ns.active_connections hid with
  | none =>
    have hnm : hid ∉ ns.active_connections.map Prod.fst := (lookupH_eq_none_iff _ _).mp hl
    constructor
    · rw [List.map_append]
      simp [List.nodup_append, h.1, hnm]
    · intro p hp
      rcases List.mem_append.mp hp with hp | hp
      · exact h.2 p hp
      · simp only [List.mem_singleton] at hp
        subst hp
        simp
  | some l =>
    constructor
    · rw [keys_setH]
      exact h.1
    · intro p hp
      rcases mem_setH _ _ _ p hp with h2 | h2
      · rw [h2]
        simp
      · exact h.2 p h2

/-- Disconnect preserves registry well-formedness. -/
theorem wf_disconnect (ns : NotificationService) (hid : Nat) (ws : Conn)
    (h : RegistryWf ns.active_connections) :
    RegistryWf (disconnect_websocket ns hid ws).active_connections := by
  unfold disconnect_websocket
  cases hl : lookupH ns.active_connections hid with
  | none => exact h
  | some l =>
    by_cases he : (l.erase ws).isEmpty
    · simp only [he, if_true]
      constructor
      · rw [keys_delH]
        exact h.1.filter _
      · intro p hp
        exact h.2 p (mem_delH _ _ p hp)
    · simp only [he, Bool.false_eq_true, if_false]
      constructor
      · rw [keys_setH]
        exact h.1
      · intro p hp
        rcases mem_setH _ _ _ p hp with h2 | h2
        · rw [h2]
          intro hemp
          rw [hemp] at he
          simp at he
        · exact h.2 p h2

/-- Disconnecting a batch preserves registry well-formedness. -/
theorem wf_foldl_disconnect (D : List Conn) (ns : NotificationService) (hid : Nat)
    (h : RegistryWf ns.active_connections) :
    RegistryWf ((D.foldl (fun acc ws => disconnect_websocket acc hid ws) ns).active_connections) := by
  induction D generalizing ns with
  | nil => exact h
  | cons a tl ih =>
    simp only [List.foldl_cons]
    exact ih _ (wf_disconnect _ _ _ h)

/-- Every operation preserves registry well-formedness. -/
theorem wf_applyOp (ns : NotificationService) (op : NotifOp)
    (h : RegistryWf ns.active_connections) :
    RegistryWf (applyOp ns op).active_connections := by
  cases op with
  | connect hid ws => exact wf_connect ns hid ws h
  | disconnect hid ws => exact wf_disconnect ns hid ws h
  | send hid ev ts d fails excl =>
    show RegistryWf ((send_household_update ns hid ev ts d fails excl).2).active_connections
    unfold send_household_update
    cases hl : lookupH ns.active_connections hid with
    | none =>
      simp only [hl]
      exact h
    | some conns =>
      simp only [hl]
      rcases hsl : sendLoop excl fails conns with ⟨delivered, disconnected⟩
      simp only [hsl]
      exact wf_foldl_disconnect disconnected ns hid h
  | cleanup =>
    constructor
    · simp [applyOp, cleanup]
    · simp [applyOp, cleanup]

/-- Every reachable state is well-formed. -/
theorem reachable_wf (ns : NotificationService) (h : Reachable ns) :
    RegistryWf ns.active_connections := by
  obtain ⟨ops, rfl⟩ := h
  unfold applyOps
  have hbase : RegistryWf initNotificationService.active_connections :=
    ⟨by simp [initNotificationService], by simp [initNotificationService]⟩
  generalize initNotificationService = start at hbase ⊢
  induction ops generalizing start with
  | nil => exact hbase
  | cons op rest ih =>
    simp only [List.foldl_cons]
    exact ih _ (wf_applyOp start op hbase)

/-- C10 (confirmed).  After any sequence of connect/disconnect/send/cleanup
operations the household registry never maps a household id to an empty
list, and disconnecting a socket that is not registered under the given
household leaves the service state unchanged rather than failing. -/
theorem C10_registry_invariant :
    (∀ ns : NotificationService, Reachable ns →
        ∀ p ∈ ns.active_connections, p.2 ≠ []) ∧
    (∀ (ns : NotificationService) (hid : Nat) (ws : Conn), Reachable ns →
        ws ∉ connsOf ns hid →
        disconnect_websocket ns hid ws = ns) := by
  constructor
  · intro ns h p hp
    exact (reachable_wf ns h).2 p hp
  · intro ns hid ws h hws
    have hwf := reachable_wf ns h
    unfold disconnect_websocket
    cases hl : lookupH ns.active_connections hid with
    | none => rfl
    | some l =>
      have hmem : (hid, l) ∈ ns.active_connections := lookupH_some_mem _ _ _ hl
      have hlne : l ≠ [] := hwf.2 _ hmem
      have hwne : ws ∉ l := by
        simp only [connsOf, hl, Option.getD_some] at hws
        exact hws
      dsimp only
      rw [List.erase_of_not_mem hwne]
      have hemp : l.isEmpty = false := by
        simpa [List.isEmpty_iff] using hlne
      simp only [hemp, Bool.false_eq_true, if_false]
      rw [setH_lookup_self _ _ _ hwf.1 hl]

/-- Witness for C10: after connecting one socket to household 1,
disconnecting an unregistered socket from household 2 is a no-op. -/
theorem C10_registry_invariant_witness :
    Reachable (applyOps [NotifOp.connect 1 { cid := 1, user_id := some 10 }]) ∧
    ({ cid := 9, user_id := none } : Conn) ∉
      connsOf (applyOps [NotifOp.connect 1 { cid := 1, user_id := some 10 }]) 2 ∧
    disconnect_websocket (applyOps [NotifOp.connect 1 { cid := 1, user_id := some 10 }]) 2
        { cid := 9, user_id := none } =
      applyOps [NotifOp.connect 1 { cid := 1, user_id := some 10 }] := by
  refine ⟨⟨[NotifOp.connect 1 { cid := 1, user_id := some 10 }], rfl⟩, by decide, ?_⟩
  exact C10_registry_invariant.2 _ 2 _
    ⟨[NotifOp.connect 1 { cid := 1, user_id := some 10 }], rfl⟩ (by decide)

/-- C9 (amended).  A household broadcast delivers the `{type, timestamp,
data}` envelope exactly to the connections registered under that household
whose stored `user_id` differs from the optionally excluded originating user
— every connection of that user is skipped, not just the originating one —
and to no connection of any other household (deliveries draw only from the
household's own registry entry, and other households' entries are left
untouched); every connection whose send faults is pruned from the registry
afterward. -/
theorem C9_broadcast_amended :
    ∀ (ns : NotificationService) (hid : Nat) (ev : String) (ts : Int) (d : String)
      (fails : Conn → Bool) (excl : Option Nat),
      ((send_household_update ns hid ev ts d fails excl).1 =
        ((connsOf ns hid).filter (fun ws => !isExcluded excl ws && !fails ws)).map
          (fun ws => (ws, { type := ev, timestamp := ts, data := d }))) ∧
      (∀ pr ∈ (send_household_update ns hid ev ts d fails excl).1,
        pr.1 ∈ connsOf ns hid ∧ pr.2 = { type := ev, timestamp := ts, data := d }) ∧
      (∀ h', h' ≠ hid →
        connsOf (send_household_update ns hid ev ts d fails excl).2 h' = connsOf ns h') ∧
      ((connsOf ns hid).Nodup →
        ∀ ws ∈ connsOf ns hid, isExcluded excl ws = false → fails ws = true →
          ws ∉ connsOf (send_household_update ns hid ev ts d fails excl).2 hid) := by
  intro ns hid ev ts d fails excl
  cases hl : lookupH ns.active_connections hid with
  | none =>
    have h0 : connsOf ns hid = [] := by simp [connsOf, hl]
    have hs : send_household_update ns hid ev ts d fails excl = ([], ns) := by
      unfold send_household_update
      simp [hl]
    refine ⟨?_, ?_, ?_, ?_⟩
    · rw [hs, h0]
      rfl
    · rw [hs]
      intro pr hpr
      cases hpr
    · intro h' _
      rw [hs]
    · intro _ ws hws
      rw [h0] at hws
      cases hws
  | some conns =>
    have h0 : connsOf ns hid = conns := by simp [connsOf, hl]
    have hs : send_household_update ns hid ev ts d fails excl =
        ((conns.filter (fun ws => !isExcluded excl ws && !fails ws)).map
           (fun ws => (ws, { type := ev, timestamp := ts, data := d })),
         (conns.filter (fun ws => !isExcluded excl ws && fails ws)).foldl
           (fun acc ws => disconnect_websocket acc hid ws) ns) := by
      unfold send_household_update
      simp [hl, sendLoop_eq]
    refine ⟨?_, ?_, ?_, ?_⟩
    · rw [hs, h0]
    · intro pr hpr
      rw [hs] at hpr
      rcases List.mem_map.mp hpr with ⟨ws, hws, heq⟩
      rw [h0, ← heq]
      exact ⟨(List.mem_filter.mp hws).1, rfl⟩
    · intro h' hne
      rw [hs, connsOf_foldl_disconnect]
      simp [hne]
    · intro hnd ws hws hexcl hfail
      rw [hs, connsOf_foldl_disconnect]
      simp only [if_pos rfl]
      rw [h0] at hnd hws ⊢
      exact not_mem_foldl_erase _ _ hnd
        (List.mem_filter.mpr ⟨hws, by simp [hexcl, hfail]⟩)

/-- C9 counterexample.  Household 1 holds three sockets: two devices of user
10 and one of user 20; household 2 holds one socket of user 30.  A broadcast
into household 1 excluding user 10 is delivered only to user 20's socket:
user 10's second device — a connection of that household that is *not* the
one originating connection — receives nothing, contradicting "every
connection ... except one optionally excluded connection".  The
other-household socket receives nothing, as claimed. -/
theorem C9_excludes_every_originator_connection :
    (send_household_update
        { active_connections :=
            [(1, [{ cid := 1, user_id := some 10 }, { cid := 2, user_id := some 10 },
                  { cid := 3, user_id := some 20 }]),
             (2, [{ cid := 4, user_id := some 30 }])],
          push_tokens := [] }
        1 "inventory_updated" 0 "payload" (fun _ => false) (some 10)).1 =
      [({ cid := 3, user_id := some 20 },
        { type := "inventory_updated", timestamp := 0, data := "payload" })] := by
  rfl

/-- Witness for C9: two households; the broadcast into household 1 with a
faulting socket prunes exactly that socket and leaves household 2's registry
untouched. -/
theorem C9_broadcast_amended_witness :
    ({ cid := 3, user_id := some 20 } : Conn) ∈
      connsOf
        { active_connections :=
            [(1, [{ cid := 1, user_id := some 10 }, { cid := 3, user_id := some 20 }]),
             (2, [{ cid := 4, user_id := some 30 }])],
          push_tokens := [] } 1 ∧
    ({ cid := 3, user_id := some 20 } : Conn) ∉
      connsOf
        (send_household_update
          { active_connections :=
              [(1, [{ cid := 1, user_id := some 10 }, { cid := 3, user_id := some 20 }]),
               (2, [{ cid := 4, user_id := some 30 }])],
            push_tokens := [] }
          1 "inventory_updated" 0 "payload" (fun ws => ws.cid == 3) (some 10)).2 1 ∧
    connsOf
        (send_household_update
          { active_connections :=
              [(1, [{ cid := 1, user_id := some 10 }, { cid := 3, user_id := some 20 }]),
               (2, [{ cid := 4, user_id := some 30 }])],
            push_tokens := [] }
          1 "inventory_updated" 0 "payload" (fun ws => ws.cid == 3) (some 10)).2 2 =
      [{ cid := 4, user_id := some 30 }] := by
  refine ⟨by decide, ?_, ?_⟩
  · exact (C9_broadcast_amended
      { active_connections :=
          [(1, [{ cid := 1, user_id := some 10 }, { cid := 3, user_id := some 20 }]),
           (2, [{ cid := 4, user_id := some 30 }])],
        push_tokens := [] }
      1 "inventory_updated" 0 "payload" (fun ws => ws.cid == 3) (some 10)).2.2.2
      (by decide) { cid := 3, user_id := some 20 } (by decide) (by decide) (by decide)
  · have h := (C9_broadcast_amended
      { active_connections :=
          [(1, [{ cid := 1, user_id := some 10 }, { cid := 3, user_id := some 20 }]),
           (2, [{ cid := 4, user_id := some 30 }])],
        push_tokens := [] }
      1 "inventory_updated" 0 "payload" (fun ws => ws.cid == 3) (some 10)).2.2.1
      2 (by decide)
    rw [h]
    rfl
